import Mathlib

/-!
Verification development for the Amol_SuperLadder intraday ladder trading
engine.  The definitions below are a shallow embedding, in Lean 4, of the
Python sources `order_manager.py`, `config.py`, `strategy_engine.py`,
`dhan_client.py` (order-placement interface) and `main.py` (manual close):

* Python `float` prices and P&L values are embedded as `ℚ` (the claims under
  scrutiny concern exact comparisons and algebra, not rounding).
* Python `int` is embedded as `ℤ`; `int(x)` (truncation toward zero) is
  `pyInt`, and `max(1, ...)` is `max 1 ...`.
* The finitely many string constants used for position mode
  (`"NONE"/"LONG"/"SHORT"`), position status (`"IDLE"`, `"ACTIVE"`,
  `"STOPPED"`, and the `"CLOSED_*"` family — `status.startswith("CLOSED")`
  becomes `Status.isClosed`), order side and order lifecycle status are
  embedded as enumerations; symbols stay `String`.
* Python dicts (`orders`, `stock_orders`, `active_stocks`) are embedded as
  insertion-ordered association lists, matching dict iteration order; the
  set `started_symbols` is a duplicate-free list.
* Order ids: the temporary ids `TEMP_<sym>_<ms-timestamp>` are `OId.temp n`
  with `n` drawn from a per-manager counter (the timestamp's role is only
  to be fresh), broker-assigned ids are `OId.broker s`.
* Broker calls (`dhan_client.place_order`) return either Python `None` or a
  response dict carrying an optional `status` string and an optional
  `orderId`; an execution is parametrised by an oracle list of such
  responses, consumed one per placement (an empty oracle yields `None`,
  matching a disconnected client).
-/

/-- Python `int(x)`: truncation toward zero. -/
def pyInt (q : ℚ) : ℤ := if 0 ≤ q then ⌊q⌋ else -(⌊-q⌋)

/-- Replace the first occurrence of `a` by `b` in a list
(Python `lst[lst.index(a)] = b`). -/
def replaceFirst {α : Type} [DecidableEq α] : List α → α → α → List α
  | [], _, _ => []
  | x :: xs, a, b => if x = a then b :: xs else x :: replaceFirst xs a b

/-- Insert `x` into an already-sorted list, after every element `y` with
`le y x` — the inner step of a stable insertion sort. -/
def insertLe {α : Type} (le : α → α → Bool) (x : α) : List α → List α
  | [] => [x]
  | y :: ys => if le y x then y :: insertLe le x ys else x :: y :: ys

/-- Stable sort (equal-priority elements keep their original relative
order), embedding Python's stable `list.sort`. -/
def stableSortBy {α : Type} (le : α → α → Bool) (l : List α) : List α :=
  l.foldl (fun acc x => insertLe le x acc) []

theorem mem_insertLe {α : Type} (le : α → α → Bool) (x : α) (l : List α) (a : α) :
    a ∈ insertLe le x l ↔ a = x ∨ a ∈ l := by
  induction l with
  | nil => simp [insertLe]
  | cons y ys ih =>
      by_cases h : le y x = true
      · simp only [insertLe, if_pos h, List.mem_cons, ih]
        tauto
      · simp only [insertLe, if_neg h, List.mem_cons]

theorem mem_stableSortBy {α : Type} (le : α → α → Bool) (l : List α) (a : α) :
    a ∈ stableSortBy le l ↔ a ∈ l := by
  suffices h : ∀ acc, a ∈ l.foldl (fun acc x => insertLe le x acc) acc ↔ a ∈ l ∨ a ∈ acc by
    simpa [stableSortBy] using h []
  induction l with
  | nil => simp
  | cons y ys ih =>
      intro acc
      simp only [List.foldl_cons, ih, mem_insertLe, List.mem_cons]
      tauto

/-! ## Order ledger (`order_manager.py`) -/

/-- Order identifier: a temporary id (`TEMP_<symbol>_<timestamp>`) or a
broker-assigned id. -/
inductive OId where
  | temp (n : ℕ)
  | broker (s : String)
deriving DecidableEq

/-- Order side (`transaction_type`): `"BUY"` or `"SELL"`. -/
inductive TxnType where
  | BUY
  | SELL
deriving DecidableEq

/-- Order lifecycle status: `"PENDING"`, `"EXECUTED"`, `"REJECTED"`,
`"CANCELLED"`. -/
inductive OrdStatus where
  | PENDING
  | EXECUTED
  | REJECTED
  | CANCELLED
deriving DecidableEq

/-- `order_manager.Order` (the `timestamp` field, used only for logging, is
omitted). -/
structure Order where
  order_id : OId
  symbol : String
  transaction_type : TxnType
  quantity : ℤ
  order_type : String
  status : OrdStatus
  executed_price : ℚ
  executed_quantity : ℤ
  retry_count : ℤ
  error_message : String
deriving DecidableEq

/-- `order_manager.OrderManager` state: the `orders` dict
(id → Order), the `stock_orders` index (symbol → list of ids), and the
source of fresh temporary ids (the millisecond timestamp in Python, a
counter here). -/
structure OrderManager where
  orders : List (OId × Order)
  stock_orders : List (String × List OId)
  temp_seq : ℕ
deriving DecidableEq

/-- Python dict assignment `d[k] = v`: overwrite in place if the key
exists, else append. -/
def dictInsert (l : List (OId × Order)) (k : OId) (v : Order) : List (OId × Order) :=
  if l.any (fun p => decide (p.1 = k)) then
    l.map (fun p => if p.1 = k then (k, v) else p)
  else
    l ++ [(k, v)]

/-- `OrderManager.create_order`: allocate a fresh temporary id, store a
PENDING order, index it under its symbol. -/
def create_order (om : OrderManager) (symbol : String) (transaction_type : TxnType)
    (quantity : ℤ) (order_type : String) : Order × OrderManager :=
  let tid := OId.temp om.temp_seq
  let order : Order :=
    { order_id := tid, symbol := symbol, transaction_type := transaction_type,
      quantity := quantity, order_type := order_type, status := OrdStatus.PENDING,
      executed_price := 0, executed_quantity := 0, retry_count := 0, error_message := "" }
  let orders := dictInsert om.orders tid order
  let so :=
    if om.stock_orders.any (fun p => decide (p.1 = symbol)) then
      om.stock_orders.map (fun p => if p.1 = symbol then (p.1, p.2 ++ [tid]) else p)
    else
      om.stock_orders ++ [(symbol, [tid])]
  (order, { orders := orders, stock_orders := so, temp_seq := om.temp_seq + 1 })

/-- Field update performed by `OrderManager.update_order_status` on the
looked-up order. -/
def set_order_result (o : Order) (status : OrdStatus) (executed_price : ℚ)
    (executed_quantity : ℤ) (error_message : String) : Order :=
  { o with status := status, executed_price := executed_price,
           executed_quantity := executed_quantity, error_message := error_message }

/-- `OrderManager.update_order_status`: if the id is known, overwrite the
order's status, executed price/quantity and error text. -/
def update_order_status (om : OrderManager) (order_id : OId) (status : OrdStatus)
    (executed_price : ℚ) (executed_quantity : ℤ) (error_message : String) : OrderManager :=
  { om with orders := om.orders.map (fun p =>
      if p.1 = order_id then
        (p.1, set_order_result p.2 status executed_price executed_quantity error_message)
      else p) }

/-- `OrderManager.replace_order_id`: re-key the record from the temporary
id to the broker id (pop + reinsert), and patch the symbol index in
place. -/
def replace_order_id (om : OrderManager) (temp_id actual_id : OId) : OrderManager :=
  match om.orders.find? (fun p => decide (p.1 = temp_id)) with
  | none => om
  | some pr =>
      let order := { pr.2 with order_id := actual_id }
      let orders := dictInsert (om.orders.filter (fun p => decide (¬ p.1 = temp_id))) actual_id order
      let so := om.stock_orders.map (fun p =>
        if p.1 = order.symbol then (p.1, replaceFirst p.2 temp_id actual_id) else p)
      { orders := orders, stock_orders := so, temp_seq := om.temp_seq }

/-- `OrderManager.get_stock_orders`: the orders currently recorded under a
symbol, in index order. -/
def get_stock_orders (om : OrderManager) (symbol : String) : List Order :=
  match om.stock_orders.find? (fun p => decide (p.1 = symbol)) with
  | none => []
  | some pr => pr.2.filterMap (fun oid => (om.orders.find? (fun q => decide (q.1 = oid))).map (·.2))

/-- `OrderManager.get_executed_orders`: the symbol's orders with status
EXECUTED. -/
def get_executed_orders (om : OrderManager) (symbol : String) : List Order :=
  (get_stock_orders om symbol).filter (fun o => decide (o.status = OrdStatus.EXECUTED))

/-- The symbol's executed orders of one side — the list both aggregate
functions reduce. -/
def executed_side_orders (om : OrderManager) (symbol : String) (transaction_type : TxnType) :
    List Order :=
  (get_executed_orders om symbol).filter (fun o => decide (o.transaction_type = transaction_type))

/-- `OrderManager.calculate_average_entry`: volume-weighted mean executed
price of the symbol's executed orders of one side; `0` when there are no
such orders or their total quantity is not positive. -/
def calculate_average_entry (om : OrderManager) (symbol : String)
    (transaction_type : TxnType) : ℚ :=
  let ex := executed_side_orders om symbol transaction_type
  if ex = [] then 0
  else
    let total_value : ℚ := (ex.map (fun o => o.executed_price * (o.executed_quantity : ℚ))).sum
    let total_quantity : ℤ := (ex.map (fun o => o.executed_quantity)).sum
    if 0 < total_quantity then total_value / (total_quantity : ℚ) else 0

/-- `OrderManager.get_total_quantity`: total executed quantity of the
symbol's executed orders of one side. -/
def get_total_quantity (om : OrderManager) (symbol : String)
    (transaction_type : TxnType) : ℤ :=
  ((executed_side_orders om symbol transaction_type).map (fun o => o.executed_quantity)).sum

/-- `OrderManager.clear_stock_orders`: delete every order recorded under
the symbol and drop the symbol's index entry. -/
def clear_stock_orders (om : OrderManager) (symbol : String) : OrderManager :=
  match om.stock_orders.find? (fun p => decide (p.1 = symbol)) with
  | none => om
  | some pr =>
      { orders := om.orders.filter (fun p => decide (¬ p.1 ∈ pr.2)),
        stock_orders := om.stock_orders.filter (fun p => decide (¬ p.1 = symbol)),
        temp_seq := om.temp_seq }

/-! ## Strategy configuration and position state (`config.py`) -/

/-- `config.StrategySettings` (credential and UI-state fields omitted;
these are the fields the engine logic reads). -/
structure StrategySettings where
  no_of_add_ons : ℤ
  add_on_percentage : ℚ
  initial_stop_loss_pct : ℚ
  trailing_stop_loss_pct : ℚ
  target_percentage : ℚ
  max_ladder_stocks : ℤ
  top_n_gainers : ℤ
  top_n_losers : ℤ
  min_turnover_crores : ℚ
  trade_capital : ℚ
  profit_target_per_stock : ℚ
  loss_limit_per_stock : ℚ
deriving DecidableEq

/-- Position mode strings `"NONE"/"LONG"/"SHORT"`. -/
inductive Mode where
  | NONE
  | LONG
  | SHORT
deriving DecidableEq

/-- Position status strings written by the program: `"IDLE"`, `"ACTIVE"`,
`"STOPPED"`, `"CLOSED_PROFIT"`, `"CLOSED_GlobalLimit"`,
`"CLOSED_EMERGENCY"`, `"CLOSED_MANUAL"`. -/
inductive Status where
  | IDLE
  | ACTIVE
  | STOPPED
  | CLOSED_PROFIT
  | CLOSED_GlobalLimit
  | CLOSED_EMERGENCY
  | CLOSED_MANUAL
deriving DecidableEq

/-- `status.startswith("CLOSED")` on the status strings above. -/
def Status.isClosed : Status → Bool
  | Status.CLOSED_PROFIT => true
  | Status.CLOSED_GlobalLimit => true
  | Status.CLOSED_EMERGENCY => true
  | Status.CLOSED_MANUAL => true
  | _ => false

/-- `config.StockStatus`: the per-symbol position record. -/
structure StockStatus where
  symbol : String
  mode : Mode
  ltp : ℚ
  change_pct : ℚ
  pnl : ℚ
  status : Status
  entry_price : ℚ
  quantity : ℤ
  ladder_level : ℤ
  next_add_on : ℚ
  stop_loss : ℚ
  target : ℚ
  prev_close : ℚ
  turnover : ℚ
  high_watermark : ℚ
  order_ids : List OId
  avg_entry_price : ℚ
deriving DecidableEq

/-- The fresh IDLE record `start_strategy` creates for each candidate
symbol. -/
def initial_stock (symbol : String) (prev_close : ℚ) : StockStatus :=
  { symbol := symbol, mode := Mode.NONE, ltp := 0, change_pct := 0, pnl := 0,
    status := Status.IDLE, entry_price := 0, quantity := 0, ladder_level := 0,
    next_add_on := 0, stop_loss := 0, target := 0, prev_close := prev_close,
    turnover := 0, high_watermark := 0, order_ids := [], avg_entry_price := 0 }

/-- The pre-computed multipliers of `LadderEngine._update_multipliers`. -/
def add_on_mult (s : StrategySettings) : ℚ := s.add_on_percentage / 100

/-- `initial_stop_loss_pct / 100`. -/
def init_sl_mult (s : StrategySettings) : ℚ := s.initial_stop_loss_pct / 100

/-- `trailing_stop_loss_pct / 100`. -/
def tsl_mult (s : StrategySettings) : ℚ := s.trailing_stop_loss_pct / 100

/-- `target_percentage / 100`. -/
def target_mult (s : StrategySettings) : ℚ := s.target_percentage / 100

/-! ## Broker responses (`dhan_client.place_order` results) -/

/-- A non-`None` response dict from `dhan_client.place_order`:
`status` and `orderId` entries may each be present or absent. -/
structure RespData where
  status : Option String
  orderId : Option String
deriving DecidableEq

/-- A `place_order` outcome: `none` is Python `None` (disconnected client,
unresolved security id, or exception), otherwise a response dict. -/
abbrev Resp := Option RespData

/-- Consume the next broker response from the oracle; an exhausted oracle
returns `None` responses. -/
def nextResp : List Resp → Resp × List Resp
  | [] => (none, [])
  | r :: rs => (r, rs)

/-- Python truthiness + `response.get('status') == 'failure'`:
the guard `if resp and resp.get('status') == 'failure'`. -/
def respIsFailure : Resp → Bool
  | none => false
  | some r => decide (r.status = some "failure")

/-- `response.get('orderId', order.order_id)` followed by `str(...)`. -/
def respOrderId (r : RespData) (fallback : OId) : OId :=
  match r.orderId with
  | some s => OId.broker s
  | none => fallback

/-- The mutable state a single symbol's transition touches: its own
position record, the order ledger, the session's started-symbol set, and
the stream of pending broker responses.  (`running` and membership of the
symbol in `active_stocks` are checked by the orchestrator before the
per-stock body runs and are not part of the per-stock state.) -/
structure EngCtx where
  stock : StockStatus
  om : OrderManager
  started : List String
  oracle : List Resp
deriving DecidableEq

/-- Python set `add` on the duplicate-free list embedding of
`started_symbols`. -/
def pySetAdd (l : List String) (x : String) : List String :=
  if x ∈ l then l else l ++ [x]

/-! ## Engine transitions (`strategy_engine.py`) -/

/-- `LadderEngine.execute_add_on`: place a pyramiding order; on a non-`None`
non-failure response record the fill at the current price and raise the
ladder level and next trigger. -/
def execute_add_on (s : StrategySettings) (c : EngCtx) (mode : Mode) : EngCtx :=
  let stock := c.stock
  let qty : ℤ :=
    if stock.entry_price > 0 then max 1 (pyInt (s.trade_capital / stock.entry_price)) else 1
  let ttype := if mode = Mode.LONG then TxnType.BUY else TxnType.SELL
  let pr := create_order c.om stock.symbol ttype qty "MARKET"
  let order := pr.1
  let om := pr.2
  let nr := nextResp c.oracle
  let resp := nr.1
  let oracle := nr.2
  match resp with
  | some r =>
      if r.status = some "failure" then
        { stock := stock, om := om, started := c.started, oracle := oracle }
      else
        let oid := respOrderId r order.order_id
        let om := replace_order_id om order.order_id oid
        let om := update_order_status om oid OrdStatus.EXECUTED stock.ltp qty ""
        let stock :=
          { stock with
            quantity := stock.quantity + qty,
            ladder_level := stock.ladder_level + 1,
            order_ids := stock.order_ids ++ [oid],
            next_add_on :=
              if mode = Mode.LONG then stock.ltp * (1 + add_on_mult s)
              else stock.ltp * (1 - add_on_mult s) }
        { stock := stock, om := om, started := c.started, oracle := oracle }
  | none => { stock := stock, om := om, started := c.started, oracle := oracle }

/-- `LadderEngine.close_position`: if any quantity is held, place the
opposite-side exit order (recording it as executed at the current price on
any non-`None` response), then zero the quantity and set the mode to NONE.
The reason string is only logged and is not part of the state. -/
def close_position (c : EngCtx) : EngCtx :=
  let stock := c.stock
  if stock.quantity > 0 then
    let ttype := if stock.mode = Mode.LONG then TxnType.SELL else TxnType.BUY
    let pr := create_order c.om stock.symbol ttype stock.quantity "MARKET"
    let order := pr.1
    let om := pr.2
    let nr := nextResp c.oracle
    let om :=
      match nr.1 with
      | some r =>
          let oid := respOrderId r order.order_id
          update_order_status (replace_order_id om order.order_id oid) oid
            OrdStatus.EXECUTED stock.ltp stock.quantity ""
      | none => om
    { stock := { stock with quantity := 0, mode := Mode.NONE },
      om := om, started := c.started, oracle := nr.2 }
  else
    { c with stock := { stock with quantity := 0, mode := Mode.NONE } }

/-- `LadderEngine.start_long_ladder`: refuse when the symbol is new this
session and the session distinct-symbol cap is reached; place the entry
BUY; bail out on an explicit failure response; otherwise mark the symbol
started and initialise the long leg at the current price. -/
def start_long_ladder (s : StrategySettings) (c : EngCtx) : EngCtx :=
  let stock := c.stock
  if stock.symbol ∉ c.started ∧ (c.started.length : ℤ) ≥ s.max_ladder_stocks then c
  else
    let qty : ℤ :=
      if stock.ltp > 0 then max 1 (pyInt (s.trade_capital / stock.ltp)) else 1
    let pr := create_order c.om stock.symbol TxnType.BUY qty "MARKET"
    let order := pr.1
    let om := pr.2
    let nr := nextResp c.oracle
    let resp := nr.1
    let oracle := nr.2
    if respIsFailure resp then
      { stock := stock, om := om, started := c.started, oracle := oracle }
    else
      let started := pySetAdd c.started stock.symbol
      let omStock :=
        match resp with
        | some r =>
            let oid := respOrderId r order.order_id
            (update_order_status (replace_order_id om order.order_id oid) oid
               OrdStatus.EXECUTED stock.ltp qty "",
             { stock with order_ids := stock.order_ids ++ [oid] })
        | none => (om, stock)
      let stock := omStock.2
      let stock :=
        { stock with
          mode := Mode.LONG, status := Status.ACTIVE, ladder_level := 1,
          entry_price := stock.ltp, avg_entry_price := stock.ltp, quantity := qty,
          high_watermark := stock.ltp,
          stop_loss := stock.ltp * (1 - init_sl_mult s),
          target := stock.ltp * (1 + target_mult s),
          next_add_on := stock.ltp * (1 + add_on_mult s) }
      { stock := stock, om := omStock.1, started := started, oracle := oracle }

/-- `LadderEngine.start_short_ladder`: the price-inverted mirror of
`start_long_ladder`. -/
def start_short_ladder (s : StrategySettings) (c : EngCtx) : EngCtx :=
  let stock := c.stock
  if stock.symbol ∉ c.started ∧ (c.started.length : ℤ) ≥ s.max_ladder_stocks then c
  else
    let qty : ℤ :=
      if stock.ltp > 0 then max 1 (pyInt (s.trade_capital / stock.ltp)) else 1
    let pr := create_order c.om stock.symbol TxnType.SELL qty "MARKET"
    let order := pr.1
    let om := pr.2
    let nr := nextResp c.oracle
    let resp := nr.1
    let oracle := nr.2
    if respIsFailure resp then
      { stock := stock, om := om, started := c.started, oracle := oracle }
    else
      let started := pySetAdd c.started stock.symbol
      let omStock :=
        match resp with
        | some r =>
            let oid := respOrderId r order.order_id
            (update_order_status (replace_order_id om order.order_id oid) oid
               OrdStatus.EXECUTED stock.ltp qty "",
             { stock with order_ids := stock.order_ids ++ [oid] })
        | none => (om, stock)
      let stock := omStock.2
      let stock :=
        { stock with
          mode := Mode.SHORT, status := Status.ACTIVE, ladder_level := 1,
          entry_price := stock.ltp, avg_entry_price := stock.ltp, quantity := qty,
          high_watermark := stock.ltp,
          stop_loss := stock.ltp * (1 + init_sl_mult s),
          target := stock.ltp * (1 - target_mult s),
          next_add_on := stock.ltp * (1 - add_on_mult s) }
      { stock := stock, om := omStock.1, started := started, oracle := oracle }

/-- Step 3 of the long tick logic: pyramiding add-on when the ladder has
room and the price reached the next trigger. -/
def long_add_on_step (s : StrategySettings) (c : EngCtx) : EngCtx :=
  if c.stock.ladder_level < s.no_of_add_ons ∧ c.stock.ltp ≥ c.stock.next_add_on then
    execute_add_on s c Mode.LONG
  else c

/-- Step 3 of the short tick logic. -/
def short_add_on_step (s : StrategySettings) (c : EngCtx) : EngCtx :=
  if c.stock.ladder_level < s.no_of_add_ons ∧ c.stock.ltp ≤ c.stock.next_add_on then
    execute_add_on s c Mode.SHORT
  else c

/-- Step 4 of the long tick logic: the trailing stop, adopted only when it
is above the current stop. -/
def tsl_long (s : StrategySettings) (st : StockStatus) : StockStatus :=
  if st.high_watermark > 0 then
    let dynamic_sl := st.high_watermark * (1 - tsl_mult s)
    if dynamic_sl > st.stop_loss then { st with stop_loss := dynamic_sl } else st
  else st

/-- Step 4 of the short tick logic: the trailing stop, adopted when it is
below the current stop or the current stop is zero. -/
def tsl_short (s : StrategySettings) (st : StockStatus) : StockStatus :=
  if st.high_watermark > 0 then
    let dynamic_sl := st.high_watermark * (1 + tsl_mult s)
    if dynamic_sl < st.stop_loss ∨ st.stop_loss = 0 then { st with stop_loss := dynamic_sl }
    else st
  else st

/-- `LadderEngine._process_long_position`: target check, stop-loss check
with unconditional flip to short, pyramiding add-on, trailing-stop
update from the high watermark. -/
def process_long_position (s : StrategySettings) (c : EngCtx) : EngCtx :=
  let stock := c.stock
  if stock.ltp ≥ stock.target then
    let c1 := close_position c
    { c1 with stock := { c1.stock with status := Status.CLOSED_PROFIT } }
  else if stock.ltp ≤ stock.stop_loss then
    start_short_ladder s (close_position c)
  else
    let c1 := long_add_on_step s c
    { c1 with stock := tsl_long s c1.stock }

/-- `LadderEngine._process_short_position`: the mirror of the long logic. -/
def process_short_position (s : StrategySettings) (c : EngCtx) : EngCtx :=
  let stock := c.stock
  if stock.ltp ≤ stock.target then
    let c1 := close_position c
    { c1 with stock := { c1.stock with status := Status.CLOSED_PROFIT } }
  else if stock.ltp ≥ stock.stop_loss then
    start_long_ladder s (close_position c)
  else
    let c1 := short_add_on_step s c
    { c1 with stock := tsl_short s c1.stock }

/-- First stage of the tick field refresh: last price, turnover and
percent change.  (The conditions read `prev_close` from the original
record; the preceding assignments leave that field untouched, so this is
the value the Python code reads after them.) -/
def tick_price_fields (st : StockStatus) (ltp volume : ℚ) : StockStatus :=
  let st1 := { st with ltp := ltp }
  let st2 := if volume > 0 then { st1 with turnover := volume * ltp } else st1
  if st.prev_close > 0 then
    { st2 with change_pct := (ltp - st.prev_close) / st.prev_close * 100 }
  else st2

/-- Second stage: the high-watermark update (best favourable price).  The
conditions read `mode` and `high_watermark`, which the price stage leaves
untouched. -/
def tick_watermark (st : StockStatus) (ltp : ℚ) : StockStatus :=
  if st.mode ≠ Mode.NONE then
    if st.mode = Mode.LONG ∧ ltp > st.high_watermark then
      { st with high_watermark := ltp }
    else if st.mode = Mode.SHORT ∧ (st.high_watermark = 0 ∨ ltp < st.high_watermark) then
      { st with high_watermark := ltp }
    else st
  else st

/-- Third stage: recompute the average entry price from the ledger and the
P&L from it (only for a held position and only when the ledger average is
positive). -/
def tick_pnl (om : OrderManager) (st : StockStatus) (ltp : ℚ) : StockStatus :=
  if st.mode ≠ Mode.NONE ∧ st.quantity > 0 then
    let avg := calculate_average_entry om st.symbol
      (if st.mode = Mode.LONG then TxnType.BUY else TxnType.SELL)
    if avg > 0 then
      { st with
        avg_entry_price := avg,
        pnl :=
          if st.mode = Mode.LONG then (ltp - avg) * (st.quantity : ℚ)
          else (avg - ltp) * (st.quantity : ℚ) }
    else st
  else st

/-- The field refresh `process_tick` performs before the trading logic:
last price, turnover, percent change, high watermark, and the
ledger-derived average entry price and P&L. -/
def tick_update (om : OrderManager) (stock : StockStatus) (ltp volume : ℚ) : StockStatus :=
  tick_pnl om (tick_watermark (tick_price_fields stock ltp volume) ltp) ltp

/-- The mode dispatch of `process_tick` (`if mode == "LONG": ... elif
mode == "SHORT": ...`). -/
def trading_logic (s : StrategySettings) (c : EngCtx) : EngCtx :=
  if c.stock.mode = Mode.LONG then process_long_position s c
  else if c.stock.mode = Mode.SHORT then process_short_position s c
  else c

/-- The per-stock absolute P&L limit at the end of `process_tick`:
`abs(stock.pnl) > settings.profit_target_per_stock` force-closes the
position and marks it CLOSED_GlobalLimit. -/
def global_limit_check (s : StrategySettings) (c : EngCtx) : EngCtx :=
  if |c.stock.pnl| > s.profit_target_per_stock then
    let c3 := close_position c
    { c3 with stock := { c3.stock with status := Status.CLOSED_GlobalLimit } }
  else c

/-- `LadderEngine.process_tick` body for a tracked symbol of a running
engine: skip STOPPED/CLOSED positions, refresh the tick-derived fields,
run the mode-specific trading logic, then the per-stock absolute P&L
limit. -/
def process_tick (s : StrategySettings) (c : EngCtx) (ltp volume : ℚ) : EngCtx :=
  if c.stock.status = Status.STOPPED ∨ c.stock.status.isClosed then c
  else
    global_limit_check s (trading_logic s { c with stock := tick_update c.om c.stock ltp volume })

/-- The per-position body of `LadderEngine.square_off_all`: positions with
a mode and held quantity are closed and marked CLOSED_EMERGENCY; the rest
are untouched. -/
def square_off_step (c : EngCtx) : EngCtx :=
  if c.stock.mode ≠ Mode.NONE ∧ c.stock.quantity > 0 then
    let c1 := close_position c
    { c1 with stock := { c1.stock with status := Status.CLOSED_EMERGENCY } }
  else c

/-- The `/api/close-position/{symbol}` handler body (`main.py`): refuse
when no position is held (mode NONE), else close and mark
CLOSED_MANUAL. -/
def manual_close (c : EngCtx) : EngCtx :=
  if c.stock.mode = Mode.NONE then c
  else
    let c1 := close_position c
    { c1 with stock := { c1.stock with status := Status.CLOSED_MANUAL } }

/-! ## Orchestrator state and the selection pass -/

/-- The `LadderEngine` state the selection pass touches: settings, the
symbol → position dict (insertion-ordered, unique symbols), the session's
started-symbol set, the order ledger and the broker-response oracle. -/
structure Engine where
  settings : StrategySettings
  active_stocks : List StockStatus
  started_symbols : List String
  om : OrderManager
  oracle : List Resp
deriving DecidableEq

/-- Run `start_long_ladder`/`start_short_ladder` on the named symbol's
current record and write the mutated position, started set, ledger and
oracle back into the engine. -/
def run_ladder_on (e : Engine) (sym : String) (isLong : Bool) : Engine :=
  match e.active_stocks.find? (fun t => decide (t.symbol = sym)) with
  | none => e
  | some st =>
      let c : EngCtx :=
        { stock := st, om := e.om, started := e.started_symbols, oracle := e.oracle }
      let c1 := if isLong then start_long_ladder e.settings c else start_short_ladder e.settings c
      { e with
        active_stocks := e.active_stocks.map (fun t => if t.symbol = sym then c1.stock else t),
        started_symbols := c1.started, om := c1.om, oracle := c1.oracle }

/-- `LadderEngine.select_top_movers`: count active longs/shorts, stop if
the session cap or global capacity is reached, clip the needed counts to
the remaining capacity with longs prioritised, filter idle candidates by
positive price and minimum turnover, rank by percent change (gainers
descending, losers ascending), and activate the top movers. -/
def select_top_movers (e : Engine) : Engine :=
  let min_turnover := e.settings.min_turnover_crores * 10000000
  let active_longs :=
    (e.active_stocks.filter (fun t => decide (t.quantity > 0 ∧ t.mode = Mode.LONG))).length
  let active_shorts :=
    (e.active_stocks.filter (fun t => decide (t.quantity > 0 ∧ t.mode = Mode.SHORT))).length
  let active_total := active_longs + active_shorts
  let max_ladders : ℤ := max 1 e.settings.max_ladder_stocks
  if (e.started_symbols.length : ℤ) ≥ max_ladders then e
  else if (active_total : ℤ) ≥ max_ladders then e
  else
    let need_longs : ℤ := max 0 (e.settings.top_n_gainers - (active_longs : ℤ))
    let need_shorts : ℤ := max 0 (e.settings.top_n_losers - (active_shorts : ℤ))
    let remaining_capacity : ℤ := max 0 (max_ladders - (active_total : ℤ))
    let nl :=
      if need_longs + need_shorts > remaining_capacity then min need_longs remaining_capacity
      else need_longs
    let ns :=
      if need_longs + need_shorts > remaining_capacity then
        min need_shorts (max 0 (remaining_capacity - nl))
      else need_shorts
    if nl ≤ 0 ∧ ns ≤ 0 then e
    else
      let idle_stocks := e.active_stocks.filter (fun t =>
        decide (t.status = Status.IDLE ∧ t.ltp > 0 ∧ t.turnover ≥ min_turnover))
      if idle_stocks = [] then e
      else
        let long_candidates := idle_stocks.filter (fun t => decide (t.change_pct > 0))
        let short_candidates := idle_stocks.filter (fun t => decide (t.change_pct < 0))
        let long_sorted :=
          stableSortBy (fun a b => decide (a.change_pct ≥ b.change_pct)) long_candidates
        let short_sorted :=
          stableSortBy (fun a b => decide (a.change_pct ≤ b.change_pct)) short_candidates
        let top_gainers := if nl > 0 then long_sorted.take nl.toNat else []
        let top_losers := if ns > 0 then short_sorted.take ns.toNat else []
        let e1 := top_gainers.foldl (fun acc t => run_ladder_on acc t.symbol true) e
        top_losers.foldl (fun acc t => run_ladder_on acc t.symbol false) e1

/-! ## Concrete scenario infrastructure -/

/-- Settings used by the concrete scenarios: no pyramiding add-ons, 10%
initial and trailing stop, 100% target, capital 1000, per-stock absolute
P&L limit 5000. -/
def sC1 : StrategySettings :=
  { no_of_add_ons := 0, add_on_percentage := 100, initial_stop_loss_pct := 10,
    trailing_stop_loss_pct := 10, target_percentage := 100, max_ladder_stocks := 20,
    top_n_gainers := 10, top_n_losers := 10, min_turnover_crores := 1,
    trade_capital := 1000, profit_target_per_stock := 5000, loss_limit_per_stock := 2000 }

/-- A successful broker response carrying an order id. -/
def okResp (oid : String) : Resp := some { status := some "success", orderId := some oid }

/-- An executed market order, as the ledger records it after
`replace_order_id` + `update_order_status`. -/
def execOrder (sym oid : String) (tt : TxnType) (q : ℤ) (p : ℚ) : Order :=
  { order_id := OId.broker oid, symbol := sym, transaction_type := tt, quantity := q,
    order_type := "MARKET", status := OrdStatus.EXECUTED, executed_price := p,
    executed_quantity := q, retry_count := 0, error_message := "" }

/-- An empty order ledger. -/
def omNil : OrderManager := { orders := [], stock_orders := [], temp_seq := 0 }

/-- An active long position on "AAA": entry 100, quantity 10, stop 90,
target 200, no orders recorded yet. -/
def stC1 : StockStatus :=
  { symbol := "AAA", mode := Mode.LONG, ltp := 100, change_pct := 0, pnl := 0,
    status := Status.ACTIVE, entry_price := 100, quantity := 10, ladder_level := 1,
    next_add_on := 1000, stop_loss := 90, target := 200, prev_close := 100,
    turnover := 0, high_watermark := 100, order_ids := [], avg_entry_price := 100 }

/-- The C1 starting context: the long position above, an empty ledger, the
symbol already counted in the session's started set, and six successful
broker responses queued. -/
def cC1 : EngCtx :=
  { stock := stC1, om := omNil, started := ["AAA"],
    oracle := [okResp "B1", okResp "B2", okResp "B3", okResp "B4", okResp "B5", okResp "B6"] }

/-- State of the C1 position after the first stop-out: flipped to SHORT at
90 (first flip). -/
def stC1a : StockStatus :=
  { symbol := "AAA", mode := Mode.SHORT, ltp := 90, change_pct := -10, pnl := 0,
    status := Status.ACTIVE, entry_price := 90, quantity := 11, ladder_level := 1,
    next_add_on := 0, stop_loss := 99, target := 0, prev_close := 100,
    turnover := 0, high_watermark := 90, order_ids := [OId.broker "B2"],
    avg_entry_price := 90 }

/-- Ledger after the first stop-out: exit and flip-entry orders. -/
def omC1a : OrderManager :=
  { orders := [(OId.broker "B1", execOrder "AAA" "B1" TxnType.SELL 10 90),
      (OId.broker "B2", execOrder "AAA" "B2" TxnType.SELL 11 90)],
    stock_orders := [("AAA", [OId.broker "B1", OId.broker "B2"])], temp_seq := 2 }

/-- State after the second stop-out: flipped back to LONG at 100 (second
flip). -/
def stC1b : StockStatus :=
  { symbol := "AAA", mode := Mode.LONG, ltp := 100, change_pct := 0, pnl := -110,
    status := Status.ACTIVE, entry_price := 100, quantity := 10, ladder_level := 1,
    next_add_on := 200, stop_loss := 90, target := 200, prev_close := 100,
    turnover := 0, high_watermark := 100, order_ids := [OId.broker "B2", OId.broker "B4"],
    avg_entry_price := 100 }

/-- Ledger after the second stop-out. -/
def omC1b : OrderManager :=
  { orders := [(OId.broker "B1", execOrder "AAA" "B1" TxnType.SELL 10 90),
      (OId.broker "B2", execOrder "AAA" "B2" TxnType.SELL 11 90),
      (OId.broker "B3", execOrder "AAA" "B3" TxnType.BUY 11 100),
      (OId.broker "B4", execOrder "AAA" "B4" TxnType.BUY 10 100)],
    stock_orders := [("AAA", [OId.broker "B1", OId.broker "B2", OId.broker "B3", OId.broker "B4"])],
    temp_seq := 4 }

/-- State after the third consecutive stop-out: flipped AGAIN to SHORT —
still ACTIVE, not a terminal close. -/
def stC1c : StockStatus :=
  { symbol := "AAA", mode := Mode.SHORT, ltp := 90, change_pct := -10, pnl := -100,
    status := Status.ACTIVE, entry_price := 90, quantity := 11, ladder_level := 1,
    next_add_on := 0, stop_loss := 99, target := 0, prev_close := 100,
    turnover := 0, high_watermark := 90,
    order_ids := [OId.broker "B2", OId.broker "B4", OId.broker "B6"],
    avg_entry_price := 90 }

/-- Ledger after the third stop-out. -/
def omC1c : OrderManager :=
  { orders := [(OId.broker "B1", execOrder "AAA" "B1" TxnType.SELL 10 90),
      (OId.broker "B2", execOrder "AAA" "B2" TxnType.SELL 11 90),
      (OId.broker "B3", execOrder "AAA" "B3" TxnType.BUY 11 100),
      (OId.broker "B4", execOrder "AAA" "B4" TxnType.BUY 10 100),
      (OId.broker "B5", execOrder "AAA" "B5" TxnType.SELL 10 90),
      (OId.broker "B6", execOrder "AAA" "B6" TxnType.SELL 11 90)],
    stock_orders := [("AAA", [OId.broker "B1", OId.broker "B2", OId.broker "B3",
      OId.broker "B4", OId.broker "B5", OId.broker "B6"])],
    temp_seq := 6 }

set_option maxHeartbeats 4000000 in
theorem c1_tick1 : process_tick sC1 cC1 90 0 =
    { stock := stC1a, om := omC1a, started := ["AAA"],
      oracle := [okResp "B3", okResp "B4", okResp "B5", okResp "B6"] } := by
  have h1 : ((0:ℚ) < 100) = True := by norm_num
  have h2 : ((100:ℚ) < 90) = False := by norm_num
  have h3 : ((90:ℚ) - 100) / 100 * 100 = -10 := by norm_num
  have h4 : ((200:ℚ) ≤ 90) = False := by norm_num
  have h5 : ((0:ℚ) < 90) = True := by norm_num
  have h6 : pyInt (1000 / 90) = 11 := by norm_num [pyInt]
  have h7 : max (1:ℤ) 11 = 11 := by norm_num
  have h8 : ((90:ℚ) * (1 + 10 / 100)) = 99 := by norm_num
  have h9 : ((90:ℚ) * (1 - 100 / 100)) = 0 := by norm_num
  have h10 : ((5000:ℚ) < |(0:ℚ)|) = False := by norm_num
  simp [process_tick, trading_logic, global_limit_check, tick_update, tick_price_fields, tick_watermark, tick_pnl, process_long_position,
    process_short_position, long_add_on_step, short_add_on_step, tsl_long, tsl_short,
    close_position, start_short_ladder, start_long_ladder, execute_add_on, create_order,
    dictInsert, update_order_status, replace_order_id, set_order_result, replaceFirst,
    calculate_average_entry, executed_side_orders, get_executed_orders, get_stock_orders,
    respIsFailure, respOrderId, nextResp, pySetAdd, add_on_mult, init_sl_mult,
    tsl_mult, target_mult, sC1, cC1, stC1, okResp, Status.isClosed, stC1a, omC1a, execOrder,
    omNil, h1, h2, h3, h4, h5, h6, h7, h8, h9, h10]

set_option maxHeartbeats 4000000 in
theorem c1_tick2 : process_tick sC1
    { stock := stC1a, om := omC1a, started := ["AAA"],
      oracle := [okResp "B3", okResp "B4", okResp "B5", okResp "B6"] } 100 0 =
    { stock := stC1b, om := omC1b, started := ["AAA"],
      oracle := [okResp "B5", okResp "B6"] } := by
  have h1 : ((0:ℚ) < 100) = True := by norm_num
  have h2 : ((100:ℚ) < 90) = False := by norm_num
  have h3 : ((100:ℚ) - 100) / 100 * 100 = 0 := by norm_num
  have h4 : ((90:ℚ) = 0) = False := by norm_num
  have h5 : ((100:ℚ) ≤ 0) = False := by norm_num
  have h6 : ((99:ℚ) ≤ 100) = True := by norm_num
  have h7 : pyInt (1000 / 100) = 10 := by norm_num [pyInt]
  have h8 : max (1:ℤ) 10 = 10 := by norm_num
  have h9 : ((100:ℚ) * (1 - 10 / 100)) = 90 := by norm_num
  have h10 : ((100:ℚ) * (1 + 100 / 100)) = 200 := by norm_num
  have h11 : ((90:ℚ) * 10 + 90 * 11) = 1890 := by norm_num
  have h16 : ((10:ℤ) + 11) = 21 := by norm_num
  have h17 : ((0:ℤ) < 21) = True := by norm_num
  have h18 : ((10:ℚ) + 11) = 21 := by norm_num
  have h19 : ((0:ℚ) < 21) = True := by norm_num
  have h20 : ((5000:ℚ) < 110) = False := by norm_num
  have h21 : ((100:ℚ) * (1 + 1)) = 200 := by norm_num
  have h12 : ((1890:ℚ) / 21) = 90 := by norm_num
  have h13 : ((0:ℚ) < 90) = True := by norm_num
  have h14 : ((90:ℚ) - 100) * 11 = -110 := by norm_num
  have h15 : ((5000:ℚ) < |(-110:ℚ)|) = False := by norm_num
  simp [process_tick, trading_logic, global_limit_check, tick_update, tick_price_fields, tick_watermark, tick_pnl, process_long_position,
    process_short_position, long_add_on_step, short_add_on_step, tsl_long, tsl_short,
    close_position, start_short_ladder, start_long_ladder, execute_add_on, create_order,
    dictInsert, update_order_status, replace_order_id, set_order_result, replaceFirst,
    calculate_average_entry, executed_side_orders, get_executed_orders, get_stock_orders,
    respIsFailure, respOrderId, nextResp, pySetAdd, add_on_mult, init_sl_mult,
    tsl_mult, target_mult, sC1, okResp, Status.isClosed, stC1a, omC1a, stC1b, omC1b, execOrder,
    h1, h2, h3, h4, h5, h6, h7, h8, h9, h10, h11, h12, h13, h14, h15, h16, h17, h18, h19, h20, h21]

set_option maxHeartbeats 4000000 in
theorem c1_tick3 : process_tick sC1
    { stock := stC1b, om := omC1b, started := ["AAA"],
      oracle := [okResp "B5", okResp "B6"] } 90 0 =
    { stock := stC1c, om := omC1c, started := ["AAA"], oracle := [] } := by
  have h1 : ((0:ℚ) < 100) = True := by norm_num
  have h2b : ((100:ℚ) < 90) = False := by norm_num
  have h3 : ((90:ℚ) - 100) / 100 * 100 = -10 := by norm_num
  have h4 : ((200:ℚ) ≤ 90) = False := by norm_num
  have h5 : ((0:ℚ) < 90) = True := by norm_num
  have h6 : pyInt (1000 / 90) = 11 := by norm_num [pyInt]
  have h7 : max (1:ℤ) 11 = 11 := by norm_num
  have h8 : ((90:ℚ) * (1 + 10 / 100)) = 99 := by norm_num
  have h9 : ((100:ℚ) * 11 + 100 * 10) = 2100 := by norm_num
  have h10 : ((11:ℤ) + 10) = 21 := by norm_num
  have h11 : ((11:ℚ) + 10) = 21 := by norm_num
  have h12 : ((0:ℤ) < 21) = True := by norm_num
  have h13 : ((2100:ℚ) / 21) = 100 := by norm_num
  have h14 : ((0:ℚ) < 100) = True := by norm_num
  have h15 : ((90:ℚ) - 100) * 10 = -100 := by norm_num
  have h16 : ((5000:ℚ) < 100) = False := by norm_num
  simp [process_tick, trading_logic, global_limit_check, tick_update, tick_price_fields, tick_watermark, tick_pnl, process_long_position,
    process_short_position, long_add_on_step, short_add_on_step, tsl_long, tsl_short,
    close_position, start_short_ladder, start_long_ladder, execute_add_on, create_order,
    dictInsert, update_order_status, replace_order_id, set_order_result, replaceFirst,
    calculate_average_entry, executed_side_orders, get_executed_orders, get_stock_orders,
    respIsFailure, respOrderId, nextResp, pySetAdd, add_on_mult, init_sl_mult,
    tsl_mult, target_mult, sC1, okResp, Status.isClosed, stC1b, omC1b, stC1c, omC1c, execOrder,
    h1, h2b, h3, h4, h5, h6, h7, h8, h9, h10, h11, h12, h13, h14, h15, h16]

/-- C1: the claim says the per-position cycle budget bounds stop-out flips
(`cycles_per_stock = 3` ⇒ third consecutive stop-out is a terminal close).
The code has no cycle counter at all: starting from an active long, three
consecutive stop-out ticks (prices 90, 100, 90, every broker call
succeeding) leave the position flipped a third time — SHORT and still
ACTIVE — instead of terminally closed. -/
theorem c1_three_stopouts_flip_without_limit :
    (process_tick sC1 (process_tick sC1 (process_tick sC1 cC1 90 0) 100 0) 90 0).stock.mode
      = Mode.SHORT ∧
    (process_tick sC1 (process_tick sC1 (process_tick sC1 cC1 90 0) 100 0) 90 0).stock.status
      = Status.ACTIVE := by
  rw [c1_tick1, c1_tick2, c1_tick3]
  exact ⟨rfl, rfl⟩

/-! ## Transition-preservation lemmas -/

theorem close_position_stock (c : EngCtx) :
    (close_position c).stock = { c.stock with quantity := 0, mode := Mode.NONE } := by
  simp only [close_position]
  split <;> rfl

theorem start_short_ladder_stock_pnl (s : StrategySettings) (c : EngCtx) :
    (start_short_ladder s c).stock.pnl = c.stock.pnl := by
  simp only [start_short_ladder]
  split
  · rfl
  · split
    · rfl
    · split <;> rfl

theorem start_long_ladder_stock_pnl (s : StrategySettings) (c : EngCtx) :
    (start_long_ladder s c).stock.pnl = c.stock.pnl := by
  simp only [start_long_ladder]
  split
  · rfl
  · split
    · rfl
    · split <;> rfl

theorem execute_add_on_stock_pnl (s : StrategySettings) (c : EngCtx) (m : Mode) :
    (execute_add_on s c m).stock.pnl = c.stock.pnl := by
  simp only [execute_add_on]
  split
  · split <;> rfl
  · rfl

theorem tsl_long_pnl (s : StrategySettings) (st : StockStatus) :
    (tsl_long s st).pnl = st.pnl := by
  simp only [tsl_long]
  split
  · split <;> rfl
  · rfl

theorem tsl_short_pnl (s : StrategySettings) (st : StockStatus) :
    (tsl_short s st).pnl = st.pnl := by
  simp only [tsl_short]
  split
  · split <;> rfl
  · rfl

theorem long_add_on_step_pnl (s : StrategySettings) (c : EngCtx) :
    (long_add_on_step s c).stock.pnl = c.stock.pnl := by
  simp only [long_add_on_step]
  split
  · exact execute_add_on_stock_pnl s c Mode.LONG
  · rfl

theorem short_add_on_step_pnl (s : StrategySettings) (c : EngCtx) :
    (short_add_on_step s c).stock.pnl = c.stock.pnl := by
  simp only [short_add_on_step]
  split
  · exact execute_add_on_stock_pnl s c Mode.SHORT
  · rfl

theorem process_long_position_pnl (s : StrategySettings) (c : EngCtx) :
    (process_long_position s c).stock.pnl = c.stock.pnl := by
  simp only [process_long_position]
  split
  · rw [close_position_stock]
  · split
    · rw [start_short_ladder_stock_pnl, close_position_stock]
    · show (tsl_long s (long_add_on_step s c).stock).pnl = c.stock.pnl
      rw [tsl_long_pnl, long_add_on_step_pnl]

theorem process_short_position_pnl (s : StrategySettings) (c : EngCtx) :
    (process_short_position s c).stock.pnl = c.stock.pnl := by
  simp only [process_short_position]
  split
  · rw [close_position_stock]
  · split
    · rw [start_long_ladder_stock_pnl, close_position_stock]
    · show (tsl_short s (short_add_on_step s c).stock).pnl = c.stock.pnl
      rw [tsl_short_pnl, short_add_on_step_pnl]

theorem trading_logic_pnl (s : StrategySettings) (c : EngCtx) :
    (trading_logic s c).stock.pnl = c.stock.pnl := by
  simp only [trading_logic]
  split
  · rw [process_long_position_pnl]
  · split
    · rw [process_short_position_pnl]
    · rfl

theorem global_limit_check_closes (s : StrategySettings) (c : EngCtx)
    (hp : s.profit_target_per_stock < |c.stock.pnl|) :
    (global_limit_check s c).stock.quantity = 0 ∧
    (global_limit_check s c).stock.mode = Mode.NONE ∧
    (global_limit_check s c).stock.status = Status.CLOSED_GlobalLimit := by
  simp only [global_limit_check]
  rw [if_pos hp]
  refine ⟨?_, ?_, ?_⟩ <;> simp [close_position_stock]

/-! ## C3: the per-stock absolute P&L cap -/

/-- C3 (amended): the force-close cap the tick path enforces is
`profit_target_per_stock`, applied to the absolute P&L: for any tracked
position that is not already STOPPED/CLOSED, if the P&L computed by the
tick's field refresh exceeds that cap in absolute value (in particular
when it crosses below its negative), the same processed tick force-closes
the position — quantity 0, mode NONE, status CLOSED_GlobalLimit —
regardless of ladder state.  (The `loss_limit_per_stock` setting plays no
role; see the counterexample.) -/
theorem c3_abs_pnl_cap_forces_close (s : StrategySettings) (c : EngCtx) (ltp vol : ℚ)
    (hg : ¬ (c.stock.status = Status.STOPPED ∨ c.stock.status.isClosed = true))
    (hp : s.profit_target_per_stock < |(tick_update c.om c.stock ltp vol).pnl|) :
    (process_tick s c ltp vol).stock.quantity = 0 ∧
    (process_tick s c ltp vol).stock.mode = Mode.NONE ∧
    (process_tick s c ltp vol).stock.status = Status.CLOSED_GlobalLimit := by
  simp only [process_tick]
  rw [if_neg hg]
  refine global_limit_check_closes s _ ?_
  rw [trading_logic_pnl]
  exact hp

/-- A long position holding 100 shares from entry 100 with a deep stop (5)
and far target (1000), so a crash tick leaves the ladder logic idle. -/
def stC3 : StockStatus :=
  { symbol := "GGG", mode := Mode.LONG, ltp := 100, change_pct := 0, pnl := 0,
    status := Status.ACTIVE, entry_price := 100, quantity := 100, ladder_level := 1,
    next_add_on := 1000, stop_loss := 5, target := 1000, prev_close := 100,
    turnover := 0, high_watermark := 100, order_ids := [OId.broker "G1"],
    avg_entry_price := 100 }

/-- Ledger holding the entry fill of `stC3`: 100 shares bought at 100. -/
def omC3 : OrderManager :=
  { orders := [(OId.broker "G1", execOrder "GGG" "G1" TxnType.BUY 100 100)],
    stock_orders := [("GGG", [OId.broker "G1"])], temp_seq := 1 }

/-- Settings with the loss cap `loss_limit_per_stock = 8000` configured and
a very large `profit_target_per_stock`, isolating which field the code
reads. -/
def sC3 : StrategySettings :=
  { sC1 with profit_target_per_stock := 1000000, loss_limit_per_stock := 8000 }

/-- C3 counterexample context: the crash tick will arrive with only the
entry fill on the ledger. -/
def cC3 : EngCtx := { stock := stC3, om := omC3, started := ["GGG"], oracle := [] }

set_option maxHeartbeats 4000000 in
theorem c3_counter_tick : process_tick sC3 cC3 10 0 =
    { stock :=
        { symbol := "GGG", mode := Mode.LONG, ltp := 10, change_pct := -90, pnl := -9000,
          status := Status.ACTIVE, entry_price := 100, quantity := 100, ladder_level := 1,
          next_add_on := 1000, stop_loss := 90, target := 1000, prev_close := 100,
          turnover := 0, high_watermark := 100, order_ids := [OId.broker "G1"],
          avg_entry_price := 100 },
      om := omC3, started := ["GGG"], oracle := [] } := by
  have h1 : ((0:ℚ) < 100) = True := by norm_num
  have h2 : ((10:ℚ) - 100) / 100 * 100 = -90 := by norm_num
  have h3 : ((100:ℚ) < 10) = False := by norm_num
  have h4 : ((100:ℚ) * 100) = 10000 := by norm_num
  have h5 : ((0:ℤ) < 100) = True := by norm_num
  have h6 : ((10000:ℚ) / 100) = 100 := by norm_num
  have h7 : ((10:ℚ) - 100) * 100 = -9000 := by norm_num
  have h8 : ((1000:ℚ) ≤ 10) = False := by norm_num
  have h9 : ((10:ℚ) ≤ 5) = False := by norm_num
  have h10 : ((1:ℤ) < 0) = False := by norm_num
  have h11 : ((100:ℚ) * (1 - 10 / 100)) = 90 := by norm_num
  have h12 : ((5:ℚ) < 90) = True := by norm_num
  have h13 : ((1000000:ℚ) < 9000) = False := by norm_num
  simp [process_tick, trading_logic, global_limit_check, tick_update, tick_price_fields, tick_watermark, tick_pnl, process_long_position,
    process_short_position, long_add_on_step, short_add_on_step, tsl_long, tsl_short,
    close_position, start_short_ladder, start_long_ladder,
    execute_add_on, create_order, dictInsert, update_order_status, replace_order_id,
    set_order_result, replaceFirst, calculate_average_entry, executed_side_orders,
    get_executed_orders, get_stock_orders, respIsFailure, respOrderId, nextResp, pySetAdd,
    add_on_mult, init_sl_mult, tsl_mult, target_mult, sC3, sC1, cC3, stC3, omC3, execOrder,
    Status.isClosed, h1, h2, h3, h4, h5, h6, h7, h8, h9, h10, h11, h12, h13]

/-- C3 counterexample: with the per-stock loss cap configured as
`loss_limit_per_stock = 8000` and the position's P&L at −9000 — well below
−8000 — the processed tick does NOT force-close the position (it stays
LONG with its full quantity): the code never reads `loss_limit_per_stock`;
only `profit_target_per_stock` (here 10⁶) gates the force-close. -/
theorem c3_loss_cap_not_enforced :
    sC3.loss_limit_per_stock = 8000 ∧
    (process_tick sC3 cC3 10 0).stock.pnl = -9000 ∧
    (process_tick sC3 cC3 10 0).stock.mode = Mode.LONG ∧
    (process_tick sC3 cC3 10 0).stock.quantity = 100 ∧
    (process_tick sC3 cC3 10 0).stock.status = Status.ACTIVE := by
  rw [c3_counter_tick]
  exact ⟨rfl, rfl, rfl, rfl, rfl⟩

/-- C3 witness context: same crash, but under settings whose
`profit_target_per_stock` is 5000. -/
def cC3w : EngCtx := { stock := stC3, om := omC3, started := ["GGG"], oracle := [okResp "G2"] }

set_option maxHeartbeats 4000000 in
theorem c3w_upd : tick_update cC3w.om cC3w.stock 10 0 =
    { symbol := "GGG", mode := Mode.LONG, ltp := 10, change_pct := -90, pnl := -9000,
      status := Status.ACTIVE, entry_price := 100, quantity := 100, ladder_level := 1,
      next_add_on := 1000, stop_loss := 5, target := 1000, prev_close := 100,
      turnover := 0, high_watermark := 100, order_ids := [OId.broker "G1"],
      avg_entry_price := 100 } := by
  have h1 : ((0:ℚ) < 100) = True := by norm_num
  have h2 : ((10:ℚ) - 100) / 100 * 100 = -90 := by norm_num
  have h3 : ((100:ℚ) < 10) = False := by norm_num
  have h4 : ((100:ℚ) * 100) = 10000 := by norm_num
  have h5 : ((0:ℤ) < 100) = True := by norm_num
  have h6 : ((10000:ℚ) / 100) = 100 := by norm_num
  have h7 : ((10:ℚ) - 100) * 100 = -9000 := by norm_num
  simp [tick_update, tick_price_fields, tick_watermark, tick_pnl, calculate_average_entry,
    executed_side_orders, get_executed_orders, get_stock_orders, cC3w, stC3, omC3, execOrder,
    h1, h2, h3, h4, h5, h6, h7]

theorem c3_force_close_witness :
    (process_tick sC1 cC3w 10 0).stock.quantity = 0 ∧
    (process_tick sC1 cC3w 10 0).stock.mode = Mode.NONE ∧
    (process_tick sC1 cC3w 10 0).stock.status = Status.CLOSED_GlobalLimit :=
  c3_abs_pnl_cap_forces_close sC1 cC3w 10 0 (by decide) (by rw [c3w_upd]; norm_num [sC1])

/-! ## C7/C8/C9: order-ledger aggregates -/

/-- The ledger after the two fills of the C7 scenario, built through the
code path (`create_order`, `replace_order_id`, `update_order_status`):
10 shares executed at 100, then 5 shares executed at 106. -/
def om_fills : OrderManager :=
  let p1 := create_order omNil "TCS" TxnType.BUY 10 "MARKET"
  let m1 := update_order_status (replace_order_id p1.2 p1.1.order_id (OId.broker "1001"))
    (OId.broker "1001") OrdStatus.EXECUTED 100 10 ""
  let p2 := create_order m1 "TCS" TxnType.BUY 5 "MARKET"
  update_order_status (replace_order_id p2.2 p2.1.order_id (OId.broker "1002"))
    (OId.broker "1002") OrdStatus.EXECUTED 106 5 ""

theorem om_fills_side : executed_side_orders om_fills "TCS" TxnType.BUY =
    [execOrder "TCS" "1001" TxnType.BUY 10 100, execOrder "TCS" "1002" TxnType.BUY 5 106] := by
  decide

/-- C7: `calculate_average_entry` returns 0 when the symbol has no
executed orders of the requested side, and otherwise (whenever their total
executed quantity is positive) the volume-weighted mean of the executed
fill prices; in particular, fills of 10 shares at 100 and 5 at 106
give exactly 102. -/
theorem c7_average_entry_is_vwap :
    (∀ (om : OrderManager) (sym : String) (tt : TxnType),
      (executed_side_orders om sym tt = [] → calculate_average_entry om sym tt = 0) ∧
      (0 < ((executed_side_orders om sym tt).map (fun o => o.executed_quantity)).sum →
        calculate_average_entry om sym tt =
          ((executed_side_orders om sym tt).map
              (fun o => o.executed_price * (o.executed_quantity : ℚ))).sum /
            ((((executed_side_orders om sym tt).map (fun o => o.executed_quantity)).sum : ℤ) : ℚ))) ∧
    calculate_average_entry om_fills "TCS" TxnType.BUY = 102 := by
  constructor
  · intro om sym tt
    constructor
    · intro he
      simp only [calculate_average_entry]
      rw [if_pos he]
    · intro hq
      have he : ¬ (executed_side_orders om sym tt = []) := by
        intro h
        rw [h] at hq
        simp at hq
      simp only [calculate_average_entry]
      rw [if_neg he, if_pos hq]
  · have he : ¬ (executed_side_orders om_fills "TCS" TxnType.BUY = []) := by
      rw [om_fills_side]
      simp
    have hq : (0:ℤ) <
        ((executed_side_orders om_fills "TCS" TxnType.BUY).map
          (fun o => o.executed_quantity)).sum := by
      rw [om_fills_side]
      decide
    simp only [calculate_average_entry]
    rw [if_neg he, if_pos hq, om_fills_side]
    norm_num [execOrder]

/-- C7 witness: the general theorem applied to the concrete two-fill
ledger, its nonempty/positive-quantity hypotheses discharged there. -/
theorem c7_vwap_witness :
    calculate_average_entry om_fills "TCS" TxnType.BUY =
      ((executed_side_orders om_fills "TCS" TxnType.BUY).map
          (fun o => o.executed_price * (o.executed_quantity : ℚ))).sum /
        ((((executed_side_orders om_fills "TCS" TxnType.BUY).map
            (fun o => o.executed_quantity)).sum : ℤ) : ℚ) :=
  (c7_average_entry_is_vwap.1 om_fills "TCS" TxnType.BUY).2 (by rw [om_fills_side]; decide)

theorem set_order_result_idem (o : Order) (st : OrdStatus) (p : ℚ) (q : ℤ) (err : String) :
    set_order_result (set_order_result o st p q err) st p q err =
      set_order_result o st p q err := by
  rfl

/-- C8: `update_order_status` is idempotent — reapplying the same status,
fill price and fill quantity to the same order leaves the whole ledger
state, and with it `get_total_quantity` (and every other derived
aggregate), exactly as after the first application. -/
theorem c8_update_status_idempotent (om : OrderManager) (oid : OId) (st : OrdStatus)
    (p : ℚ) (q : ℤ) (err : String) :
    update_order_status (update_order_status om oid st p q err) oid st p q err =
      update_order_status om oid st p q err ∧
    ∀ (sym : String) (tt : TxnType),
      get_total_quantity (update_order_status (update_order_status om oid st p q err) oid st p q err) sym tt =
        get_total_quantity (update_order_status om oid st p q err) sym tt := by
  have h : update_order_status (update_order_status om oid st p q err) oid st p q err =
      update_order_status om oid st p q err := by
    simp only [update_order_status, List.map_map]
    congr 1
    apply List.map_congr_left
    intro a _
    by_cases hp : a.1 = oid
    · simp [Function.comp, hp, set_order_result_idem]
    · simp [Function.comp, hp]
  exact ⟨h, fun sym tt => by rw [h]⟩

/-- A small ledger for the C9 close: one executed entry order on TCS. -/
def omC9 : OrderManager :=
  { orders := [(OId.broker "E1", execOrder "TCS" "E1" TxnType.BUY 10 100)],
    stock_orders := [("TCS", [OId.broker "E1"])], temp_seq := 1 }

/-- An active long position on TCS about to be fully closed at 105. -/
def cC9 : EngCtx :=
  { stock :=
      { symbol := "TCS", mode := Mode.LONG, ltp := 105, change_pct := 5, pnl := 50,
        status := Status.ACTIVE, entry_price := 100, quantity := 10, ladder_level := 1,
        next_add_on := 1000, stop_loss := 90, target := 200, prev_close := 100,
        turnover := 0, high_watermark := 105, order_ids := [OId.broker "E1"],
        avg_entry_price := 100 },
    om := omC9, started := ["TCS"], oracle := [okResp "E2"] }

/-- C9: fully closing a position does NOT remove the symbol's orders from
the ledger — `close_position` never calls `clear_stock_orders` (which no
code calls); after the close the ledger still holds the entry order and
additionally the new exit order. -/
theorem c9_orders_survive_close :
    (close_position cC9).stock.quantity = 0 ∧
    (close_position cC9).stock.mode = Mode.NONE ∧
    get_stock_orders (close_position cC9).om "TCS" =
      [execOrder "TCS" "E1" TxnType.BUY 10 100,
       execOrder "TCS" "E2" TxnType.SELL 10 105] := by
  decide

/-! ## C4: failed entry attempts -/

/-- C4 (amended): when `place_order` returns an explicit failure-status
response, `start_long_ladder` and `start_short_ladder` leave every
position field unchanged and do not add the symbol to the session's
started set.  (A `None` response, by contrast, still activates the
position — see the counterexample.) -/
theorem c4_failure_response_leaves_symbol_untouched (s : StrategySettings)
    (stock : StockStatus) (om : OrderManager) (started : List String)
    (r : RespData) (rest : List Resp) (hr : r.status = some "failure") :
    (start_long_ladder s
        { stock := stock, om := om, started := started, oracle := some r :: rest }).stock
      = stock ∧
    (start_long_ladder s
        { stock := stock, om := om, started := started, oracle := some r :: rest }).started
      = started ∧
    (start_short_ladder s
        { stock := stock, om := om, started := started, oracle := some r :: rest }).stock
      = stock ∧
    (start_short_ladder s
        { stock := stock, om := om, started := started, oracle := some r :: rest }).started
      = started := by
  have hf : respIsFailure (some r) = true := by simp [respIsFailure, hr]
  by_cases hg : stock.symbol ∉ started ∧ ((started.length : ℤ) ≥ s.max_ladder_stocks)
  · refine ⟨?_, ?_, ?_, ?_⟩ <;> simp [start_long_ladder, start_short_ladder, hg]
  · refine ⟨?_, ?_, ?_, ?_⟩ <;> simp [start_long_ladder, start_short_ladder, hg, nextResp, hf]

/-- A fresh idle candidate at price 100 (as initialised by
`start_strategy`, after one tick set its price). -/
def stC4 : StockStatus :=
  { symbol := "AAA", mode := Mode.NONE, ltp := 100, change_pct := 0, pnl := 0,
    status := Status.IDLE, entry_price := 0, quantity := 0, ladder_level := 0,
    next_add_on := 0, stop_loss := 0, target := 0, prev_close := 100,
    turnover := 0, high_watermark := 0, order_ids := [], avg_entry_price := 0 }

/-- C4 counterexample context: the broker call will return Python `None`
(disconnected client / unresolved security id / exception). -/
def cC4 : EngCtx := { stock := stC4, om := omNil, started := [], oracle := [none] }

set_option maxHeartbeats 4000000 in
theorem c4_null_step : start_long_ladder sC1 cC4 =
    { stock :=
        { symbol := "AAA", mode := Mode.LONG, ltp := 100, change_pct := 0, pnl := 0,
          status := Status.ACTIVE, entry_price := 100, quantity := 10, ladder_level := 1,
          next_add_on := 200, stop_loss := 90, target := 200, prev_close := 100,
          turnover := 0, high_watermark := 100, order_ids := [], avg_entry_price := 100 },
      om := { orders := [(OId.temp 0,
                { order_id := OId.temp 0, symbol := "AAA", transaction_type := TxnType.BUY,
                  quantity := 10, order_type := "MARKET", status := OrdStatus.PENDING,
                  executed_price := 0, executed_quantity := 0, retry_count := 0,
                  error_message := "" })],
              stock_orders := [("AAA", [OId.temp 0])], temp_seq := 1 },
      started := ["AAA"], oracle := [] } := by
  have h1 : ((20:ℤ) ≤ 0) = False := by norm_num
  have h2 : ((0:ℚ) < 100) = True := by norm_num
  have h3 : pyInt (1000 / 100) = 10 := by norm_num [pyInt]
  have h4 : max (1:ℤ) 10 = 10 := by norm_num
  have h5 : ((100:ℚ) * (1 - 10 / 100)) = 90 := by norm_num
  have h6 : ((100:ℚ) * (1 + 1)) = 200 := by norm_num
  have h7 : ((100:ℚ) * (1 + 100 / 100)) = 200 := by norm_num
  simp [start_long_ladder, create_order, dictInsert, respIsFailure, respOrderId, nextResp,
    pySetAdd, add_on_mult, init_sl_mult, tsl_mult, target_mult, sC1, cC4, stC4, omNil,
    h1, h2, h3, h4, h5, h6, h7]

/-- C4 counterexample: a `None` order-placement response (disconnected
client, unresolved security id, or exception in `place_order`) does NOT
leave the symbol idle: `start_long_ladder` still activates the position
(mode LONG, status ACTIVE, quantity 10) and consumes a session slot, with
no executed order behind it. -/
theorem c4_null_response_still_activates :
    (start_long_ladder sC1 cC4).stock.mode = Mode.LONG ∧
    (start_long_ladder sC1 cC4).stock.status = Status.ACTIVE ∧
    (start_long_ladder sC1 cC4).stock.quantity = 10 ∧
    (start_long_ladder sC1 cC4).started = ["AAA"] := by
  rw [c4_null_step]
  exact ⟨rfl, rfl, rfl, rfl⟩

/-- C4 witness: the amended theorem applied to the concrete idle candidate
with an explicit failure-status response. -/
theorem c4_failure_witness :
    (start_long_ladder sC1
        { stock := stC4, om := omNil, started := [],
          oracle := some { status := some "failure", orderId := none } :: [] }).stock
      = stC4 ∧
    (start_long_ladder sC1
        { stock := stC4, om := omNil, started := [],
          oracle := some { status := some "failure", orderId := none } :: [] }).started
      = [] ∧
    (start_short_ladder sC1
        { stock := stC4, om := omNil, started := [],
          oracle := some { status := some "failure", orderId := none } :: [] }).stock
      = stC4 ∧
    (start_short_ladder sC1
        { stock := stC4, om := omNil, started := [],
          oracle := some { status := some "failure", orderId := none } :: [] }).started
      = [] :=
  c4_failure_response_leaves_symbol_untouched sC1 stC4 omNil []
    { status := some "failure", orderId := none } [] rfl


theorem tick_price_fields_same (st : StockStatus) (ltp vol : ℚ) :
    (tick_price_fields st ltp vol).mode = st.mode ∧
    (tick_price_fields st ltp vol).quantity = st.quantity ∧
    (tick_price_fields st ltp vol).stop_loss = st.stop_loss ∧
    (tick_price_fields st ltp vol).target = st.target ∧
    (tick_price_fields st ltp vol).status = st.status ∧
    (tick_price_fields st ltp vol).symbol = st.symbol := by
  by_cases hv : vol > 0 <;> by_cases hp : st.prev_close > 0 <;>
    simp [tick_price_fields, hv, hp]

theorem tick_watermark_same (st : StockStatus) (ltp : ℚ) :
    (tick_watermark st ltp).mode = st.mode ∧
    (tick_watermark st ltp).quantity = st.quantity ∧
    (tick_watermark st ltp).stop_loss = st.stop_loss ∧
    (tick_watermark st ltp).target = st.target ∧
    (tick_watermark st ltp).status = st.status ∧
    (tick_watermark st ltp).symbol = st.symbol := by
  by_cases h0 : st.mode ≠ Mode.NONE <;>
    by_cases h1 : st.mode = Mode.LONG ∧ ltp > st.high_watermark <;>
      by_cases h2 : st.mode = Mode.SHORT ∧ (st.high_watermark = 0 ∨ ltp < st.high_watermark) <;>
        simp [tick_watermark, h0, h1, h2]

theorem tick_pnl_same (om : OrderManager) (st : StockStatus) (ltp : ℚ) :
    (tick_pnl om st ltp).mode = st.mode ∧
    (tick_pnl om st ltp).quantity = st.quantity ∧
    (tick_pnl om st ltp).stop_loss = st.stop_loss ∧
    (tick_pnl om st ltp).target = st.target ∧
    (tick_pnl om st ltp).status = st.status ∧
    (tick_pnl om st ltp).symbol = st.symbol := by
  by_cases h0 : st.mode ≠ Mode.NONE ∧ st.quantity > 0 <;>
    by_cases h1 : calculate_average_entry om st.symbol
        (if st.mode = Mode.LONG then TxnType.BUY else TxnType.SELL) > 0 <;>
      simp [tick_pnl, h0, h1]

theorem tick_update_same (om : OrderManager) (st : StockStatus) (ltp vol : ℚ) :
    (tick_update om st ltp vol).mode = st.mode ∧
    (tick_update om st ltp vol).quantity = st.quantity ∧
    (tick_update om st ltp vol).stop_loss = st.stop_loss ∧
    (tick_update om st ltp vol).target = st.target ∧
    (tick_update om st ltp vol).status = st.status ∧
    (tick_update om st ltp vol).symbol = st.symbol := by
  have hp := tick_price_fields_same st ltp vol
  have hw := tick_watermark_same (tick_price_fields st ltp vol) ltp
  have hn := tick_pnl_same om (tick_watermark (tick_price_fields st ltp vol) ltp) ltp
  simp only [tick_update]
  exact ⟨by rw [hn.1, hw.1, hp.1], by rw [hn.2.1, hw.2.1, hp.2.1],
    by rw [hn.2.2.1, hw.2.2.1, hp.2.2.1], by rw [hn.2.2.2.1, hw.2.2.2.1, hp.2.2.2.1],
    by rw [hn.2.2.2.2.1, hw.2.2.2.2.1, hp.2.2.2.2.1],
    by rw [hn.2.2.2.2.2, hw.2.2.2.2.2, hp.2.2.2.2.2]⟩

theorem tsl_long_same (s : StrategySettings) (st : StockStatus) :
    (tsl_long s st).mode = st.mode ∧ (tsl_long s st).quantity = st.quantity ∧
    (tsl_long s st).status = st.status := by
  simp only [tsl_long]
  split
  · split <;> exact ⟨rfl, rfl, rfl⟩
  · exact ⟨rfl, rfl, rfl⟩

theorem tsl_short_same (s : StrategySettings) (st : StockStatus) :
    (tsl_short s st).mode = st.mode ∧ (tsl_short s st).quantity = st.quantity ∧
    (tsl_short s st).status = st.status := by
  simp only [tsl_short]
  split
  · split <;> exact ⟨rfl, rfl, rfl⟩
  · exact ⟨rfl, rfl, rfl⟩

theorem entry_qty_pos (s : StrategySettings) (x : ℚ) :
    0 < (if x > 0 then max 1 (pyInt (s.trade_capital / x)) else 1) := by
  split
  · exact lt_of_lt_of_le one_pos (le_max_left _ _)
  · exact one_pos

def posInv (st : StockStatus) : Prop := 0 < st.quantity ↔ st.mode ≠ Mode.NONE

theorem posInv_of_same (st st2 : StockStatus) (hq : st2.quantity = st.quantity)
    (hm : st2.mode = st.mode) (h : posInv st) : posInv st2 := by
  simp only [posInv, hq, hm]
  exact h

theorem posInv_start_long (s : StrategySettings) (c : EngCtx) (h : posInv c.stock) :
    posInv ((start_long_ladder s c).stock) := by
  simp only [start_long_ladder]
  split
  · exact h
  · split
    · exact h
    · split <;>
        · simp only [posInv]
          constructor
          · intro _
            simp
          · intro _
            exact entry_qty_pos s c.stock.ltp

theorem posInv_start_short (s : StrategySettings) (c : EngCtx) (h : posInv c.stock) :
    posInv ((start_short_ladder s c).stock) := by
  simp only [start_short_ladder]
  split
  · exact h
  · split
    · exact h
    · split <;>
        · simp only [posInv]
          constructor
          · intro _
            simp
          · intro _
            exact entry_qty_pos s c.stock.ltp

theorem posInv_close (c : EngCtx) : posInv ((close_position c).stock) := by
  rw [close_position_stock]
  simp [posInv]

theorem posInv_execute_add_on (s : StrategySettings) (c : EngCtx) (m : Mode)
    (h : posInv c.stock) (hm : c.stock.mode ≠ Mode.NONE) :
    posInv ((execute_add_on s c m).stock) := by
  have hq : 0 < c.stock.quantity := h.2 hm
  simp only [execute_add_on]
  split
  · split
    · exact h
    · simp only [posInv]
      constructor
      · intro _
        exact hm
      · intro _
        exact add_pos hq (entry_qty_pos s c.stock.entry_price)
  · exact h

theorem posInv_long_add_on_step (s : StrategySettings) (c : EngCtx)
    (h : posInv c.stock) (hm : c.stock.mode ≠ Mode.NONE) :
    posInv ((long_add_on_step s c).stock) := by
  simp only [long_add_on_step]
  split
  · exact posInv_execute_add_on s c Mode.LONG h hm
  · exact h

theorem posInv_short_add_on_step (s : StrategySettings) (c : EngCtx)
    (h : posInv c.stock) (hm : c.stock.mode ≠ Mode.NONE) :
    posInv ((short_add_on_step s c).stock) := by
  simp only [short_add_on_step]
  split
  · exact posInv_execute_add_on s c Mode.SHORT h hm
  · exact h

theorem posInv_process_long (s : StrategySettings) (c : EngCtx)
    (h : posInv c.stock) (hm : c.stock.mode ≠ Mode.NONE) :
    posInv ((process_long_position s c).stock) := by
  simp only [process_long_position]
  split
  · exact posInv_of_same _ _ (by rw [close_position_stock]) (by rw [close_position_stock])
      (posInv_close c)
  · split
    · exact posInv_start_short s _ (posInv_close c)
    · show posInv (tsl_long s (long_add_on_step s c).stock)
      have hs := tsl_long_same s (long_add_on_step s c).stock
      exact posInv_of_same _ _ hs.2.1 hs.1 (posInv_long_add_on_step s c h hm)

theorem posInv_process_short (s : StrategySettings) (c : EngCtx)
    (h : posInv c.stock) (hm : c.stock.mode ≠ Mode.NONE) :
    posInv ((process_short_position s c).stock) := by
  simp only [process_short_position]
  split
  · exact posInv_of_same _ _ (by rw [close_position_stock]) (by rw [close_position_stock])
      (posInv_close c)
  · split
    · exact posInv_start_long s _ (posInv_close c)
    · show posInv (tsl_short s (short_add_on_step s c).stock)
      have hs := tsl_short_same s (short_add_on_step s c).stock
      exact posInv_of_same _ _ hs.2.1 hs.1 (posInv_short_add_on_step s c h hm)

theorem posInv_trading_logic (s : StrategySettings) (c : EngCtx) (h : posInv c.stock) :
    posInv ((trading_logic s c).stock) := by
  simp only [trading_logic]
  split
  · next hmode => exact posInv_process_long s c h (by rw [hmode]; simp)
  · split
    · next hmode => exact posInv_process_short s c h (by rw [hmode]; simp)
    · exact h

theorem posInv_global_limit_check (s : StrategySettings) (c : EngCtx) (h : posInv c.stock) :
    posInv ((global_limit_check s c).stock) := by
  simp only [global_limit_check]
  split
  · exact posInv_of_same _ _ (by rw [close_position_stock]) (by rw [close_position_stock])
      (posInv_close c)
  · exact h

theorem posInv_process_tick (s : StrategySettings) (c : EngCtx) (ltp vol : ℚ)
    (h : posInv c.stock) : posInv ((process_tick s c ltp vol).stock) := by
  simp only [process_tick]
  split
  · exact h
  · apply posInv_global_limit_check
    apply posInv_trading_logic
    have hs := tick_update_same c.om c.stock ltp vol
    exact posInv_of_same _ _ hs.2.1 hs.1 h

theorem posInv_square_off_step (c : EngCtx) (h : posInv c.stock) :
    posInv ((square_off_step c).stock) := by
  simp only [square_off_step]
  split
  · exact posInv_of_same _ _ (by rw [close_position_stock]) (by rw [close_position_stock])
      (posInv_close c)
  · exact h

theorem posInv_manual_close (c : EngCtx) (h : posInv c.stock) :
    posInv ((manual_close c).stock) := by
  simp only [manual_close]
  split
  · exact h
  · exact posInv_of_same _ _ (by rw [close_position_stock]) (by rw [close_position_stock])
      (posInv_close c)

/-- C5: the position invariant `quantity > 0 ↔ mode ≠ NONE` holds at
position creation and is preserved by every operation: ladder entry (long
and short), pyramiding add-on (in its call context, a held position),
close, square-off, tick processing and manual close. -/
theorem c5_quantity_mode_invariant :
    (∀ (sym : String) (pc : ℚ), posInv (initial_stock sym pc)) ∧
    (∀ (s : StrategySettings) (c : EngCtx), posInv c.stock →
      posInv ((start_long_ladder s c).stock)) ∧
    (∀ (s : StrategySettings) (c : EngCtx), posInv c.stock →
      posInv ((start_short_ladder s c).stock)) ∧
    (∀ (s : StrategySettings) (c : EngCtx) (m : Mode), posInv c.stock →
      c.stock.mode ≠ Mode.NONE → posInv ((execute_add_on s c m).stock)) ∧
    (∀ c : EngCtx, posInv ((close_position c).stock)) ∧
    (∀ c : EngCtx, posInv c.stock → posInv ((square_off_step c).stock)) ∧
    (∀ (s : StrategySettings) (c : EngCtx) (ltp vol : ℚ), posInv c.stock →
      posInv ((process_tick s c ltp vol).stock)) ∧
    (∀ c : EngCtx, posInv c.stock → posInv ((manual_close c).stock)) :=
  ⟨fun sym pc => by simp [posInv, initial_stock],
   fun s c h => posInv_start_long s c h,
   fun s c h => posInv_start_short s c h,
   fun s c m h hm => posInv_execute_add_on s c m h hm,
   fun c => posInv_close c,
   fun c h => posInv_square_off_step c h,
   fun s c ltp vol h => posInv_process_tick s c ltp vol h,
   fun c h => posInv_manual_close c h⟩

/-- C5 witness: the invariant-preservation conjunct for tick processing
applied to the concrete active long position of the C1 scenario, its
invariant hypothesis discharged there. -/
theorem c5_invariant_witness : posInv ((process_tick sC1 cC1 90 0).stock) :=
  c5_quantity_mode_invariant.2.2.2.2.2.2.1 sC1 cC1 90 0 (by simp [posInv, cC1, stC1])


theorem tick_price_fields_hw_ltp (st : StockStatus) (ltp vol : ℚ) :
    (tick_price_fields st ltp vol).high_watermark = st.high_watermark ∧
    (tick_price_fields st ltp vol).ltp = ltp := by
  by_cases hv : vol > 0 <;> by_cases hp : st.prev_close > 0 <;>
    simp [tick_price_fields, hv, hp]

theorem tick_pnl_hw_ltp (om : OrderManager) (st : StockStatus) (ltp : ℚ) :
    (tick_pnl om st ltp).high_watermark = st.high_watermark ∧
    (tick_pnl om st ltp).ltp = st.ltp := by
  by_cases h0 : st.mode ≠ Mode.NONE ∧ st.quantity > 0 <;>
    by_cases h1 : calculate_average_entry om st.symbol
        (if st.mode = Mode.LONG then TxnType.BUY else TxnType.SELL) > 0 <;>
      simp [tick_pnl, h0, h1]

theorem tick_watermark_ltp (st : StockStatus) (ltp : ℚ) :
    (tick_watermark st ltp).ltp = st.ltp := by
  by_cases h0 : st.mode ≠ Mode.NONE <;>
    by_cases h1 : st.mode = Mode.LONG ∧ ltp > st.high_watermark <;>
      by_cases h2 : st.mode = Mode.SHORT ∧ (st.high_watermark = 0 ∨ ltp < st.high_watermark) <;>
        simp [tick_watermark, h0, h1, h2]

theorem tick_update_ltp (om : OrderManager) (st : StockStatus) (ltp vol : ℚ) :
    (tick_update om st ltp vol).ltp = ltp := by
  simp only [tick_update]
  rw [(tick_pnl_hw_ltp om _ ltp).2, tick_watermark_ltp, (tick_price_fields_hw_ltp st ltp vol).2]

theorem tick_update_hw_short_neg (om : OrderManager) (st : StockStatus) (ltp vol : ℚ)
    (hm : st.mode = Mode.SHORT) (hltp : ltp < 0) :
    (tick_update om st ltp vol).high_watermark ≤ 0 := by
  simp only [tick_update]
  rw [(tick_pnl_hw_ltp om _ ltp).1]
  have hm1 : (tick_price_fields st ltp vol).mode = Mode.SHORT := by
    rw [(tick_price_fields_same st ltp vol).1, hm]
  have hw1 : (tick_price_fields st ltp vol).high_watermark = st.high_watermark :=
    (tick_price_fields_hw_ltp st ltp vol).1
  set st1 := tick_price_fields st ltp vol with hst1
  simp only [tick_watermark, hm1]
  by_cases h2 : st1.high_watermark = 0 ∨ ltp < st1.high_watermark
  · simp [h2]
    exact le_of_lt hltp
  · simp [h2]
    push_neg at h2
    rw [hw1] at h2 ⊢
    exact le_of_lt (lt_of_le_of_lt h2.2 hltp)

theorem execute_add_on_stock_same (s : StrategySettings) (c : EngCtx) (m : Mode) :
    (execute_add_on s c m).stock.mode = c.stock.mode ∧
    (execute_add_on s c m).stock.status = c.stock.status ∧
    (execute_add_on s c m).stock.stop_loss = c.stock.stop_loss ∧
    (execute_add_on s c m).stock.high_watermark = c.stock.high_watermark ∧
    (execute_add_on s c m).stock.ltp = c.stock.ltp := by
  simp only [execute_add_on]
  split
  · split <;> exact ⟨rfl, rfl, rfl, rfl, rfl⟩
  · exact ⟨rfl, rfl, rfl, rfl, rfl⟩

theorem long_add_on_step_stock_same (s : StrategySettings) (c : EngCtx) :
    (long_add_on_step s c).stock.mode = c.stock.mode ∧
    (long_add_on_step s c).stock.status = c.stock.status ∧
    (long_add_on_step s c).stock.stop_loss = c.stock.stop_loss ∧
    (long_add_on_step s c).stock.high_watermark = c.stock.high_watermark ∧
    (long_add_on_step s c).stock.ltp = c.stock.ltp := by
  simp only [long_add_on_step]
  split
  · exact execute_add_on_stock_same s c Mode.LONG
  · exact ⟨rfl, rfl, rfl, rfl, rfl⟩

theorem short_add_on_step_stock_same (s : StrategySettings) (c : EngCtx) :
    (short_add_on_step s c).stock.mode = c.stock.mode ∧
    (short_add_on_step s c).stock.status = c.stock.status ∧
    (short_add_on_step s c).stock.stop_loss = c.stock.stop_loss ∧
    (short_add_on_step s c).stock.high_watermark = c.stock.high_watermark ∧
    (short_add_on_step s c).stock.ltp = c.stock.ltp := by
  simp only [short_add_on_step]
  split
  · exact execute_add_on_stock_same s c Mode.SHORT
  · exact ⟨rfl, rfl, rfl, rfl, rfl⟩

theorem tsl_long_mono (s : StrategySettings) (st : StockStatus) :
    st.stop_loss ≤ (tsl_long s st).stop_loss := by
  simp only [tsl_long]
  split
  · split
    · next h => exact le_of_lt h
    · exact le_refl _
  · exact le_refl _

theorem start_short_ladder_stock_mode (s : StrategySettings) (c : EngCtx) :
    (start_short_ladder s c).stock.mode = Mode.SHORT ∨
    (start_short_ladder s c).stock.mode = c.stock.mode := by
  simp only [start_short_ladder]
  split
  · right
    rfl
  · split
    · right
      rfl
    · split <;> (left; rfl)

theorem start_long_ladder_stock_mode (s : StrategySettings) (c : EngCtx) :
    (start_long_ladder s c).stock.mode = Mode.LONG ∨
    (start_long_ladder s c).stock.mode = c.stock.mode := by
  simp only [start_long_ladder]
  split
  · right
    rfl
  · split
    · right
      rfl
    · split <;> (left; rfl)

theorem global_limit_check_cases (s : StrategySettings) (c : EngCtx) :
    global_limit_check s c = c ∨ (global_limit_check s c).stock.mode = Mode.NONE := by
  simp only [global_limit_check]
  split
  · right
    simp [close_position_stock]
  · left
    rfl


theorem c6_long_part (s : StrategySettings) (c : EngCtx) (ltp vol : ℚ)
    (hm : c.stock.mode = Mode.LONG)
    (hafter : (process_tick s c ltp vol).stock.mode = Mode.LONG) :
    c.stock.stop_loss ≤ (process_tick s c ltp vol).stock.stop_loss := by
  by_cases hg : c.stock.status = Status.STOPPED ∨ c.stock.status.isClosed = true
  · simp only [process_tick, if_pos hg]
    exact le_refl _
  · simp only [process_tick, if_neg hg] at hafter ⊢
    set c1 : EngCtx := { c with stock := tick_update c.om c.stock ltp vol } with hc1
    have hmu : c1.stock.mode = Mode.LONG := by
      show (tick_update c.om c.stock ltp vol).mode = Mode.LONG
      rw [(tick_update_same c.om c.stock ltp vol).1, hm]
    rcases global_limit_check_cases s (trading_logic s c1) with hid | hnone
    · rw [hid] at hafter ⊢
      simp only [trading_logic, if_pos hmu] at hafter ⊢
      simp only [process_long_position] at hafter ⊢
      by_cases ht : c1.stock.ltp ≥ c1.stock.target
      · rw [if_pos ht] at hafter
        exfalso
        simp [close_position_stock] at hafter
      · rw [if_neg ht] at hafter ⊢
        by_cases hs2 : c1.stock.ltp ≤ c1.stock.stop_loss
        · rw [if_pos hs2] at hafter
          exfalso
          rcases start_short_ladder_stock_mode s (close_position c1) with h | h
          · rw [hafter] at h
            simp at h
          · rw [hafter, close_position_stock] at h
            simp at h
        · rw [if_neg hs2]
          show c.stock.stop_loss ≤ (tsl_long s (long_add_on_step s c1).stock).stop_loss
          have h1 : (long_add_on_step s c1).stock.stop_loss = c.stock.stop_loss := by
            rw [(long_add_on_step_stock_same s c1).2.2.1]
            show (tick_update c.om c.stock ltp vol).stop_loss = c.stock.stop_loss
            exact (tick_update_same c.om c.stock ltp vol).2.2.1
          calc c.stock.stop_loss = (long_add_on_step s c1).stock.stop_loss := h1.symm
            _ ≤ (tsl_long s (long_add_on_step s c1).stock).stop_loss := tsl_long_mono s _
    · rw [hafter] at hnone
      simp at hnone

theorem c6_short_part (s : StrategySettings) (c : EngCtx) (ltp vol : ℚ)
    (hm : c.stock.mode = Mode.SHORT)
    (hafter : (process_tick s c ltp vol).stock.mode = Mode.SHORT) :
    (process_tick s c ltp vol).stock.stop_loss ≤ c.stock.stop_loss := by
  by_cases hg : c.stock.status = Status.STOPPED ∨ c.stock.status.isClosed = true
  · simp only [process_tick, if_pos hg]
    exact le_refl _
  · simp only [process_tick, if_neg hg] at hafter ⊢
    set c1 : EngCtx := { c with stock := tick_update c.om c.stock ltp vol } with hc1
    have hmu : c1.stock.mode = Mode.SHORT := by
      show (tick_update c.om c.stock ltp vol).mode = Mode.SHORT
      rw [(tick_update_same c.om c.stock ltp vol).1, hm]
    have hmu2 : ¬ (c1.stock.mode = Mode.LONG) := by
      rw [hmu]
      simp
    rcases global_limit_check_cases s (trading_logic s c1) with hid | hnone
    · rw [hid] at hafter ⊢
      simp only [trading_logic, if_neg hmu2, if_pos hmu] at hafter ⊢
      simp only [process_short_position] at hafter ⊢
      by_cases ht : c1.stock.ltp ≤ c1.stock.target
      · rw [if_pos ht] at hafter
        exfalso
        simp [close_position_stock] at hafter
      · rw [if_neg ht] at hafter ⊢
        by_cases hs2 : c1.stock.ltp ≥ c1.stock.stop_loss
        · rw [if_pos hs2] at hafter
          exfalso
          rcases start_long_ladder_stock_mode s (close_position c1) with h | h
          · rw [hafter] at h
            simp at h
          · rw [hafter, close_position_stock] at h
            simp at h
        · rw [if_neg hs2]
          show (tsl_short s (short_add_on_step s c1).stock).stop_loss ≤ c.stock.stop_loss
          have hsame := short_add_on_step_stock_same s c1
          have hstop : (short_add_on_step s c1).stock.stop_loss = c.stock.stop_loss := by
            rw [hsame.2.2.1]
            exact (tick_update_same c.om c.stock ltp vol).2.2.1
          have hhwsame : (short_add_on_step s c1).stock.high_watermark =
              (tick_update c.om c.stock ltp vol).high_watermark := hsame.2.2.2.1
          simp only [tsl_short]
          by_cases hhw : (short_add_on_step s c1).stock.high_watermark > 0
          · rw [if_pos hhw]
            by_cases hd : (short_add_on_step s c1).stock.high_watermark * (1 + tsl_mult s) <
                (short_add_on_step s c1).stock.stop_loss ∨
                (short_add_on_step s c1).stock.stop_loss = 0
            · rw [if_pos hd]
              rcases hd with hd | hzero
              · show (short_add_on_step s c1).stock.high_watermark * (1 + tsl_mult s) ≤
                  c.stock.stop_loss
                rw [← hstop]
                exact le_of_lt hd
              · exfalso
                have hneg : ltp < 0 := by
                  have h5 : (tick_update c.om c.stock ltp vol).ltp <
                      (tick_update c.om c.stock ltp vol).stop_loss := not_le.mp hs2
                  rw [tick_update_ltp, (tick_update_same c.om c.stock ltp vol).2.2.1] at h5
                  have h8 : c.stock.stop_loss = 0 := by
                    rw [← hstop]
                    exact hzero
                  rw [h8] at h5
                  exact h5
                have hw0 : (tick_update c.om c.stock ltp vol).high_watermark ≤ 0 :=
                  tick_update_hw_short_neg c.om c.stock ltp vol hm hneg
                rw [hhwsame] at hhw
                exact absurd hw0 (not_le.mpr hhw)
            · rw [if_neg hd]
              rw [hstop]
          · rw [if_neg hhw]
            rw [hstop]
    · rw [hafter] at hnone
      simp at hnone


/-- C6: while a position stays open through a tick (same mode before and
after `process_tick`), the stop-loss only tightens: a long position's
stop never decreases and a short position's never increases. -/
theorem c6_trailing_stop_monotone :
    (∀ (s : StrategySettings) (c : EngCtx) (ltp vol : ℚ),
      c.stock.mode = Mode.LONG → (process_tick s c ltp vol).stock.mode = Mode.LONG →
      c.stock.stop_loss ≤ (process_tick s c ltp vol).stock.stop_loss) ∧
    (∀ (s : StrategySettings) (c : EngCtx) (ltp vol : ℚ),
      c.stock.mode = Mode.SHORT → (process_tick s c ltp vol).stock.mode = Mode.SHORT →
      (process_tick s c ltp vol).stock.stop_loss ≤ c.stock.stop_loss) :=
  ⟨c6_long_part, c6_short_part⟩

set_option maxHeartbeats 4000000 in
theorem c6w_tick : process_tick sC1 cC1 95 0 =
    { stock := { stC1 with ltp := 95, change_pct := -5 }, om := omNil, started := ["AAA"],
      oracle := [okResp "B1", okResp "B2", okResp "B3", okResp "B4", okResp "B5", okResp "B6"] } := by
  have h1 : ((0:ℚ) < 100) = True := by norm_num
  have h2 : ((100:ℚ) < 95) = False := by norm_num
  have h3 : ((95:ℚ) - 100) / 100 * 100 = -5 := by norm_num
  have h4 : ((200:ℚ) ≤ 95) = False := by norm_num
  have h5 : ((95:ℚ) ≤ 90) = False := by norm_num
  have h6 : ((1:ℤ) < 0) = False := by norm_num
  have h7 : ((100:ℚ) * (1 - 10 / 100)) = 90 := by norm_num
  have h8 : ((5000:ℚ) < |(0:ℚ)|) = False := by norm_num
  simp [process_tick, trading_logic, global_limit_check, tick_update, tick_price_fields,
    tick_watermark, tick_pnl, process_long_position, process_short_position, long_add_on_step,
    short_add_on_step, tsl_long, tsl_short, close_position, calculate_average_entry,
    executed_side_orders, get_executed_orders, get_stock_orders, tsl_mult, sC1, cC1, stC1,
    omNil, Status.isClosed, h1, h2, h3, h4, h5, h6, h7, h8]

/-- C6 witness: the long conjunct applied to the concrete active long
position of the C1 scenario on a mid-range tick (price 95), both mode
hypotheses discharged there. -/
theorem c6_monotone_witness :
    cC1.stock.stop_loss ≤ (process_tick sC1 cC1 95 0).stock.stop_loss :=
  c6_trailing_stop_monotone.1 sC1 cC1 95 0 rfl (by rw [c6w_tick]; rfl)


theorem close_position_started (c : EngCtx) : (close_position c).started = c.started := by
  simp only [close_position]
  split <;> rfl

theorem close_position_oracle_pos (c : EngCtx) (hq : 0 < c.stock.quantity) :
    (close_position c).oracle = (nextResp c.oracle).2 := by
  simp only [close_position]
  rw [if_pos hq]

theorem start_short_ladder_refused (s : StrategySettings) (c : EngCtx)
    (h : c.stock.symbol ∉ c.started ∧ (c.started.length : ℤ) ≥ s.max_ladder_stocks) :
    start_short_ladder s c = c := by
  simp only [start_short_ladder]
  rw [if_pos h]

theorem start_short_ladder_failed (s : StrategySettings) (c : EngCtx) (r : RespData)
    (rest : List Resp) (hc : c.oracle = some r :: rest) (hr : r.status = some "failure") :
    (start_short_ladder s c).stock = c.stock := by
  simp only [start_short_ladder]
  split
  · rfl
  · rw [hc]
    simp [nextResp, respIsFailure, hr]

theorem trading_logic_long (s : StrategySettings) (c : EngCtx)
    (hmu : c.stock.mode = Mode.LONG) : trading_logic s c = process_long_position s c := by
  simp only [trading_logic]
  rw [if_pos hmu]

theorem global_limit_check_id (s : StrategySettings) (c : EngCtx)
    (hnp : ¬ (|c.stock.pnl| > s.profit_target_per_stock)) : global_limit_check s c = c := by
  simp only [global_limit_check]
  rw [if_neg hnp]

theorem tick_price_fields_pnl (st : StockStatus) (ltp vol : ℚ) :
    (tick_price_fields st ltp vol).pnl = st.pnl := by
  by_cases hv : vol > 0 <;> by_cases hp : st.prev_close > 0 <;>
    simp [tick_price_fields, hv, hp]

theorem tick_watermark_pnl (st : StockStatus) (ltp : ℚ) :
    (tick_watermark st ltp).pnl = st.pnl := by
  by_cases h0 : st.mode ≠ Mode.NONE <;>
    by_cases h1 : st.mode = Mode.LONG ∧ ltp > st.high_watermark <;>
      by_cases h2 : st.mode = Mode.SHORT ∧ (st.high_watermark = 0 ∨ ltp < st.high_watermark) <;>
        simp [tick_watermark, h0, h1, h2]

theorem tick_update_pnl_none (om : OrderManager) (st : StockStatus) (ltp vol : ℚ)
    (hm : st.mode = Mode.NONE) : (tick_update om st ltp vol).pnl = st.pnl := by
  simp only [tick_update]
  have hm2 : (tick_watermark (tick_price_fields st ltp vol) ltp).mode = Mode.NONE := by
    rw [(tick_watermark_same _ ltp).1, (tick_price_fields_same st ltp vol).1, hm]
  simp only [tick_pnl, hm2]
  simp
  rw [tick_watermark_pnl, tick_price_fields_pnl]


theorem trading_logic_none (s : StrategySettings) (c : EngCtx)
    (hmu : c.stock.mode = Mode.NONE) : trading_logic s c = c := by
  simp only [trading_logic]
  rw [if_neg (by rw [hmu]; simp), if_neg (by rw [hmu]; simp)]

theorem c10_stranded_tick (s : StrategySettings) (c : EngCtx) (ltp vol : ℚ)
    (hg : ¬ (c.stock.status = Status.STOPPED ∨ c.stock.status.isClosed = true))
    (hm : c.stock.mode = Mode.LONG)
    (ht : ¬ ((tick_update c.om c.stock ltp vol).ltp ≥ (tick_update c.om c.stock ltp vol).target))
    (hs : (tick_update c.om c.stock ltp vol).ltp ≤ (tick_update c.om c.stock ltp vol).stop_loss)
    (hq : 0 < (tick_update c.om c.stock ltp vol).quantity)
    (hfail : (c.stock.symbol ∉ c.started ∧ (c.started.length : ℤ) ≥ s.max_ladder_stocks) ∨
      (∃ r1 : Resp, ∃ r : RespData, ∃ rest : List Resp,
        c.oracle = r1 :: some r :: rest ∧ r.status = some "failure"))
    (hnp : ¬ (s.profit_target_per_stock < |(tick_update c.om c.stock ltp vol).pnl|)) :
    (process_tick s c ltp vol).stock.mode = Mode.NONE ∧
    (process_tick s c ltp vol).stock.quantity = 0 ∧
    (process_tick s c ltp vol).stock.status = c.stock.status := by
  simp only [process_tick, if_neg hg]
  have hmu : ({ c with stock := tick_update c.om c.stock ltp vol } : EngCtx).stock.mode
      = Mode.LONG := by
    show (tick_update c.om c.stock ltp vol).mode = Mode.LONG
    rw [(tick_update_same c.om c.stock ltp vol).1, hm]
  rw [trading_logic_long s _ hmu]
  simp only [process_long_position]
  rw [if_neg ht, if_pos hs]
  have hclosed := close_position_stock ({ c with stock := tick_update c.om c.stock ltp vol })
  have hstat : (tick_update c.om c.stock ltp vol).status = c.stock.status :=
    (tick_update_same c.om c.stock ltp vol).2.2.2.2.1
  rcases hfail with href | ⟨r1, r, rest, hc, hr⟩
  · have h1 : (close_position { c with stock := tick_update c.om c.stock ltp vol }).stock.symbol
        ∉ (close_position { c with stock := tick_update c.om c.stock ltp vol }).started := by
      rw [close_position_started, hclosed]
      show (tick_update c.om c.stock ltp vol).symbol ∉ c.started
      rw [(tick_update_same c.om c.stock ltp vol).2.2.2.2.2]
      exact href.1
    have h2 : (((close_position { c with stock := tick_update c.om c.stock ltp vol }).started).length : ℤ)
        ≥ s.max_ladder_stocks := by
      rw [close_position_started]
      exact href.2
    rw [start_short_ladder_refused s _ ⟨h1, h2⟩]
    have hp : ¬ (|(close_position { c with stock := tick_update c.om c.stock ltp vol }).stock.pnl|
        > s.profit_target_per_stock) := by
      rw [hclosed]
      show ¬ (|(tick_update c.om c.stock ltp vol).pnl| > s.profit_target_per_stock)
      exact hnp
    rw [global_limit_check_id s _ hp]
    refine ⟨by rw [hclosed], by rw [hclosed], ?_⟩
    rw [hclosed]
    show (tick_update c.om c.stock ltp vol).status = c.stock.status
    exact hstat
  · have horacle : (close_position { c with stock := tick_update c.om c.stock ltp vol }).oracle
        = some r :: rest := by
      rw [close_position_oracle_pos _ hq]
      show (nextResp c.oracle).2 = some r :: rest
      rw [hc]
      rfl
    have hsz := start_short_ladder_failed s
      (close_position { c with stock := tick_update c.om c.stock ltp vol }) r rest horacle hr
    have hpz : ¬ (|(start_short_ladder s
        (close_position { c with stock := tick_update c.om c.stock ltp vol })).stock.pnl|
        > s.profit_target_per_stock) := by
      rw [hsz, hclosed]
      show ¬ (|(tick_update c.om c.stock ltp vol).pnl| > s.profit_target_per_stock)
      exact hnp
    rw [global_limit_check_id s _ hpz]
    refine ⟨by rw [hsz, hclosed], by rw [hsz, hclosed], ?_⟩
    rw [hsz, hclosed]
    show (tick_update c.om c.stock ltp vol).status = c.stock.status
    exact hstat

theorem c10_inert_tick (s : StrategySettings) (c : EngCtx) (ltp vol : ℚ)
    (hg : ¬ (c.stock.status = Status.STOPPED ∨ c.stock.status.isClosed = true))
    (hm : c.stock.mode = Mode.NONE)
    (hnp : ¬ (s.profit_target_per_stock < |c.stock.pnl|)) :
    (process_tick s c ltp vol).stock.mode = Mode.NONE ∧
    (process_tick s c ltp vol).stock.quantity = c.stock.quantity ∧
    (process_tick s c ltp vol).stock.status = c.stock.status ∧
    (process_tick s c ltp vol).stock.pnl = c.stock.pnl := by
  simp only [process_tick, if_neg hg]
  have hmu : ({ c with stock := tick_update c.om c.stock ltp vol } : EngCtx).stock.mode
      = Mode.NONE := by
    show (tick_update c.om c.stock ltp vol).mode = Mode.NONE
    rw [(tick_update_same c.om c.stock ltp vol).1, hm]
  rw [trading_logic_none s _ hmu]
  have hpnl : (tick_update c.om c.stock ltp vol).pnl = c.stock.pnl :=
    tick_update_pnl_none c.om c.stock ltp vol hm
  have hp : ¬ (|({ c with stock := tick_update c.om c.stock ltp vol } : EngCtx).stock.pnl|
      > s.profit_target_per_stock) := by
    show ¬ (|(tick_update c.om c.stock ltp vol).pnl| > s.profit_target_per_stock)
    rw [hpnl]
    exact hnp
  rw [global_limit_check_id s _ hp]
  exact ⟨hmu, (tick_update_same c.om c.stock ltp vol).2.1,
    (tick_update_same c.om c.stock ltp vol).2.2.2.2.1, hpnl⟩

theorem square_off_step_none (c : EngCtx) (hm : c.stock.mode = Mode.NONE) :
    square_off_step c = c := by
  simp only [square_off_step]
  rw [if_neg (by rw [hm]; simp)]

theorem manual_close_none (c : EngCtx) (hm : c.stock.mode = Mode.NONE) :
    manual_close c = c := by
  simp only [manual_close]
  rw [if_pos hm]


theorem start_long_ladder_stock_symbol (s : StrategySettings) (c : EngCtx) :
    (start_long_ladder s c).stock.symbol = c.stock.symbol := by
  simp only [start_long_ladder]
  split
  · rfl
  · split
    · rfl
    · split <;> rfl

theorem start_short_ladder_stock_symbol (s : StrategySettings) (c : EngCtx) :
    (start_short_ladder s c).stock.symbol = c.stock.symbol := by
  simp only [start_short_ladder]
  split
  · rfl
  · split
    · rfl
    · split <;> rfl

theorem find?_symbol_map_replace (l : List StockStatus) (sym sym2 : String)
    (new : StockStatus) (hne : ¬ sym2 = sym) (hnew : new.symbol = sym2) :
    (l.map (fun t => if t.symbol = sym2 then new else t)).find?
        (fun t => decide (t.symbol = sym)) =
      l.find? (fun t => decide (t.symbol = sym)) := by
  induction l with
  | nil => rfl
  | cons x xs ih =>
      simp only [List.map_cons]
      by_cases hx2 : x.symbol = sym2
      · have hxs : ¬ (x.symbol = sym) := by
          rw [hx2]
          exact hne
        rw [if_pos hx2]
        rw [List.find?_cons_of_neg _ (by simp [hnew, hne]),
          List.find?_cons_of_neg _ (by simp [hxs])]
        exact ih
      · rw [if_neg hx2]
        by_cases hxs : x.symbol = sym
        · rw [List.find?_cons_of_pos _ (by simp [hxs]), List.find?_cons_of_pos _ (by simp [hxs])]
        · rw [List.find?_cons_of_neg _ (by simp [hxs]), List.find?_cons_of_neg _ (by simp [hxs])]
          exact ih

theorem run_ladder_on_find_preserve (e : Engine) (sym sym2 : String) (b : Bool)
    (hne : ¬ sym2 = sym) :
    (run_ladder_on e sym2 b).active_stocks.find? (fun t => decide (t.symbol = sym)) =
      e.active_stocks.find? (fun t => decide (t.symbol = sym)) := by
  simp only [run_ladder_on]
  cases hf : e.active_stocks.find? (fun t => decide (t.symbol = sym2)) with
  | none => rfl
  | some st2 =>
      have hsym2 : st2.symbol = sym2 := by
        have h := List.find?_some hf
        simpa using h
      apply find?_symbol_map_replace
      · exact hne
      · cases b
        · rw [if_neg (by simp), start_short_ladder_stock_symbol]
          exact hsym2
        · rw [if_pos rfl, start_long_ladder_stock_symbol]
          exact hsym2

theorem foldl_run_ladder_find_preserve (tops : List StockStatus) (b : Bool) (sym : String)
    (h : ∀ t ∈ tops, ¬ t.symbol = sym) :
    ∀ e : Engine,
      (tops.foldl (fun acc t => run_ladder_on acc t.symbol b) e).active_stocks.find?
          (fun t => decide (t.symbol = sym)) =
        e.active_stocks.find? (fun t => decide (t.symbol = sym)) := by
  induction tops with
  | nil => intro e; rfl
  | cons t ts ih =>
      intro e
      simp only [List.foldl_cons]
      rw [ih (fun x hx => h x (List.mem_cons_of_mem t hx))]
      exact run_ladder_on_find_preserve e sym t.symbol b (h t (List.mem_cons_self t ts))


set_option maxHeartbeats 4000000 in
theorem select_top_movers_keeps_nonidle (e : Engine) (sym : String) (st : StockStatus)
    (huniq : (e.active_stocks.map (fun t => t.symbol)).Nodup)
    (hfind : e.active_stocks.find? (fun t => decide (t.symbol = sym)) = some st)
    (hst : ¬ st.status = Status.IDLE) :
    (select_top_movers e).active_stocks.find? (fun t => decide (t.symbol = sym)) = some st := by
  have hsym : st.symbol = sym := by simpa using List.find?_some hfind
  have hmem : st ∈ e.active_stocks := List.mem_of_find?_eq_some hfind
  have hkey : ∀ t ∈ e.active_stocks, t.status = Status.IDLE → ¬ t.symbol = sym := by
    intro t htm htidle hts
    have h : t = st := List.inj_on_of_nodup_map huniq htm hmem (by rw [hts, hsym])
    rw [h] at htidle
    exact hst htidle
  have hidle : ∀ t ∈ e.active_stocks.filter (fun t =>
      decide (t.status = Status.IDLE ∧ t.ltp > 0 ∧
        t.turnover ≥ e.settings.min_turnover_crores * 10000000)), ¬ t.symbol = sym := by
    intro t ht
    have h2 := List.mem_filter.1 ht
    have h3 := of_decide_eq_true h2.2
    exact hkey t h2.1 h3.1
  simp only [select_top_movers]
  repeat' split
  all_goals first
    | exact hfind
    | (rw [foldl_run_ladder_find_preserve _ false sym (by
          intro t ht
          try split at ht
          all_goals first
            | exact absurd ht (List.not_mem_nil t)
            | (have h1 := List.take_subset _ _ ht
               have h2 := (mem_stableSortBy _ _ t).1 h1
               have h3 := (List.mem_filter.1 h2).1
               exact hidle t h3)),
        foldl_run_ladder_find_preserve _ true sym (by
          intro t ht
          try split at ht
          all_goals first
            | exact absurd ht (List.not_mem_nil t)
            | (have h1 := List.take_subset _ _ ht
               have h2 := (mem_stableSortBy _ _ t).1 h1
               have h3 := (List.mem_filter.1 h2).1
               exact hidle t h3))]
       exact hfind)


/-! ## C10: positions stranded by a failed stop-out flip -/

/-- An explicit failure-status broker response. -/
def failResp : Resp := some { status := some "failure", orderId := none }

theorem c10_stale_terminal (s : StrategySettings) (c : EngCtx) (ltp vol : ℚ)
    (hg : ¬ (c.stock.status = Status.STOPPED ∨ c.stock.status.isClosed = true))
    (hm : c.stock.mode = Mode.NONE)
    (hp : s.profit_target_per_stock < |c.stock.pnl|) :
    (process_tick s c ltp vol).stock.status = Status.CLOSED_GlobalLimit := by
  simp only [process_tick]
  rw [if_neg hg]
  have hmu : ({ c with stock := tick_update c.om c.stock ltp vol } : EngCtx).stock.mode
      = Mode.NONE := by
    show (tick_update c.om c.stock ltp vol).mode = Mode.NONE
    rw [(tick_update_same c.om c.stock ltp vol).1, hm]
  rw [trading_logic_none s _ hmu]
  refine (global_limit_check_closes s _ ?_).2.2
  show s.profit_target_per_stock < |(tick_update c.om c.stock ltp vol).pnl|
  rw [tick_update_pnl_none c.om c.stock ltp vol hm]
  exact hp

/-- An active long position on "DDD" deep under water: entry 1000 for 100
shares, stop 900 — at the stop the frozen loss is −10000, past the 5000
absolute P&L limit of `sC1`. -/
def stC10 : StockStatus :=
  { symbol := "DDD", mode := Mode.LONG, ltp := 1000, change_pct := 0, pnl := 0,
    status := Status.ACTIVE, entry_price := 1000, quantity := 100, ladder_level := 1,
    next_add_on := 10000, stop_loss := 900, target := 2000, prev_close := 1000,
    turnover := 0, high_watermark := 1000, order_ids := [OId.broker "E1"],
    avg_entry_price := 1000 }

/-- Ledger holding the entry fill of `stC10`: 100 shares bought at 1000. -/
def omC10 : OrderManager :=
  { orders := [(OId.broker "E1", execOrder "DDD" "E1" TxnType.BUY 100 1000)],
    stock_orders := [("DDD", [OId.broker "E1"])], temp_seq := 1 }

/-- C10 counterexample context: the exit order will succeed, the flip
entry will fail at the broker. -/
def cC10 : EngCtx :=
  { stock := stC10, om := omC10, started := ["DDD"], oracle := [okResp "X1", failResp] }

set_option maxHeartbeats 4000000 in
theorem c10_tick : process_tick sC1 cC10 900 0 =
    { stock :=
        { symbol := "DDD", mode := Mode.NONE, ltp := 900, change_pct := -10, pnl := -10000,
          status := Status.CLOSED_GlobalLimit, entry_price := 1000, quantity := 0,
          ladder_level := 1, next_add_on := 10000, stop_loss := 900, target := 2000,
          prev_close := 1000, turnover := 0, high_watermark := 1000,
          order_ids := [OId.broker "E1"], avg_entry_price := 1000 },
      om :=
        { orders := [(OId.broker "E1", execOrder "DDD" "E1" TxnType.BUY 100 1000),
            (OId.broker "X1", execOrder "DDD" "X1" TxnType.SELL 100 900),
            (OId.temp 2,
              { order_id := OId.temp 2, symbol := "DDD", transaction_type := TxnType.SELL,
                quantity := 1, order_type := "MARKET", status := OrdStatus.PENDING,
                executed_price := 0, executed_quantity := 0, retry_count := 0,
                error_message := "" })],
          stock_orders := [("DDD", [OId.broker "E1", OId.broker "X1", OId.temp 2])],
          temp_seq := 3 },
      started := ["DDD"], oracle := [] } := by
  have h1 : ((0:ℚ) < 1000) = True := by norm_num
  have h2 : ((1000:ℚ) < 900) = False := by norm_num
  have h3 : ((900:ℚ) - 1000) / 1000 * 100 = -10 := by norm_num
  have h4 : ((1000:ℚ) * 100) = 100000 := by norm_num
  have h5 : ((0:ℤ) < 100) = True := by norm_num
  have h6 : ((100000:ℚ) / 100) = 1000 := by norm_num
  have h7 : ((900:ℚ) - 1000) * 100 = -10000 := by norm_num
  have h8 : ((2000:ℚ) ≤ 900) = False := by norm_num
  have h9 : ((900:ℚ) ≤ 900) = True := by norm_num
  have h10 : ((0:ℚ) < 900) = True := by norm_num
  have h11 : pyInt ((1000:ℚ) / 900) = 1 := by norm_num [pyInt]
  have h12 : max (1:ℤ) 1 = 1 := by norm_num
  have h13 : ((5000:ℚ) < |(-10000:ℚ)|) = True := by norm_num
  have h14 : ((5000:ℚ) < 10000) = True := by norm_num
  simp [process_tick, trading_logic, global_limit_check, tick_update, tick_price_fields,
    tick_watermark, tick_pnl, process_long_position, process_short_position,
    long_add_on_step, short_add_on_step, tsl_long, tsl_short, close_position,
    start_short_ladder, start_long_ladder, execute_add_on, create_order, dictInsert,
    update_order_status, replace_order_id, set_order_result, replaceFirst,
    calculate_average_entry, executed_side_orders, get_executed_orders, get_stock_orders,
    respIsFailure, respOrderId, nextResp, pySetAdd, add_on_mult, init_sl_mult, tsl_mult,
    target_mult, sC1, cC10, stC10, omC10, failResp, okResp, execOrder, Status.isClosed,
    h1, h2, h3, h4, h5, h6, h7, h8, h9, h10, h11, h12, h13, h14]

/-- C10 counterexample: a stop-loss close whose immediate flip entry FAILS
at the broker does not leave the symbol "status still ACTIVE, never
reaching a terminal status": here the frozen P&L of the stranded position
(−10000) exceeds the absolute limit (5000), so the very same tick marks
the symbol CLOSED_GlobalLimit — a terminal status. -/
theorem c10_failed_flip_can_reach_global_limit :
    (process_tick sC1 cC10 900 0).stock.mode = Mode.NONE ∧
    (process_tick sC1 cC10 900 0).stock.quantity = 0 ∧
    (process_tick sC1 cC10 900 0).stock.status = Status.CLOSED_GlobalLimit := by
  rw [c10_tick]
  exact ⟨rfl, rfl, rfl⟩

/-- An active long position on "EEE" with a small frozen loss at the stop:
entry 100 for 10 shares, stop 90 — the loss at the stop is −100, well
inside the 5000 absolute limit. -/
def stC10w : StockStatus :=
  { symbol := "EEE", mode := Mode.LONG, ltp := 100, change_pct := 0, pnl := 0,
    status := Status.ACTIVE, entry_price := 100, quantity := 10, ladder_level := 1,
    next_add_on := 1000, stop_loss := 90, target := 200, prev_close := 100,
    turnover := 0, high_watermark := 100, order_ids := [OId.broker "F1"],
    avg_entry_price := 100 }

/-- Ledger holding the entry fill of `stC10w`: 10 shares bought at 100. -/
def omC10w : OrderManager :=
  { orders := [(OId.broker "F1", execOrder "EEE" "F1" TxnType.BUY 10 100)],
    stock_orders := [("EEE", [OId.broker "F1"])], temp_seq := 1 }

/-- C10 witness context: the exit order succeeds, the flip entry fails. -/
def cC10w : EngCtx :=
  { stock := stC10w, om := omC10w, started := ["EEE"], oracle := [okResp "Y1", failResp] }

set_option maxHeartbeats 4000000 in
theorem c10w_upd : tick_update cC10w.om cC10w.stock 90 0 =
    { symbol := "EEE", mode := Mode.LONG, ltp := 90, change_pct := -10, pnl := -100,
      status := Status.ACTIVE, entry_price := 100, quantity := 10, ladder_level := 1,
      next_add_on := 1000, stop_loss := 90, target := 200, prev_close := 100,
      turnover := 0, high_watermark := 100, order_ids := [OId.broker "F1"],
      avg_entry_price := 100 } := by
  have h1 : ((0:ℚ) < 100) = True := by norm_num
  have h2 : ((100:ℚ) < 90) = False := by norm_num
  have h3 : ((90:ℚ) - 100) / 100 * 100 = -10 := by norm_num
  have h4 : ((100:ℚ) * 10) = 1000 := by norm_num
  have h5 : ((0:ℤ) < 10) = True := by norm_num
  have h6 : ((1000:ℚ) / 10) = 100 := by norm_num
  have h7 : ((90:ℚ) - 100) * 10 = -100 := by norm_num
  simp [tick_update, tick_price_fields, tick_watermark, tick_pnl, calculate_average_entry,
    executed_side_orders, get_executed_orders, get_stock_orders, cC10w, stC10w, omC10w,
    execOrder, h1, h2, h3, h4, h5, h6, h7]

/-- C10 (amended): a stop-loss close whose immediate flip entry is refused
(session distinct-symbol cap) or fails at the broker strands the position —
mode NONE, quantity 0, status unchanged (so still ACTIVE); the selection
pass never touches a non-IDLE symbol again; subsequent ticks leave the
stranded record inert while its frozen P&L stays inside the absolute limit,
and the manual-close endpoint and the square-off pass refuse mode-NONE
positions.  BUT the stranded symbol is not locked out of terminal statuses:
whenever its frozen P&L exceeds `profit_target_per_stock` in absolute
value, the next processed tick marks it CLOSED_GlobalLimit. -/
theorem c10_stranded_position_lifecycle :
    (∀ (s : StrategySettings) (c : EngCtx) (ltp vol : ℚ),
      ¬ (c.stock.status = Status.STOPPED ∨ c.stock.status.isClosed = true) →
      c.stock.mode = Mode.LONG →
      ¬ ((tick_update c.om c.stock ltp vol).ltp ≥ (tick_update c.om c.stock ltp vol).target) →
      (tick_update c.om c.stock ltp vol).ltp ≤ (tick_update c.om c.stock ltp vol).stop_loss →
      0 < (tick_update c.om c.stock ltp vol).quantity →
      ((c.stock.symbol ∉ c.started ∧ (c.started.length : ℤ) ≥ s.max_ladder_stocks) ∨
        (∃ r1 : Resp, ∃ r : RespData, ∃ rest : List Resp,
          c.oracle = r1 :: some r :: rest ∧ r.status = some "failure")) →
      ¬ (s.profit_target_per_stock < |(tick_update c.om c.stock ltp vol).pnl|) →
      (process_tick s c ltp vol).stock.mode = Mode.NONE ∧
      (process_tick s c ltp vol).stock.quantity = 0 ∧
      (process_tick s c ltp vol).stock.status = c.stock.status) ∧
    (∀ (e : Engine) (sym : String) (st : StockStatus),
      (e.active_stocks.map (fun t => t.symbol)).Nodup →
      e.active_stocks.find? (fun t => decide (t.symbol = sym)) = some st →
      ¬ st.status = Status.IDLE →
      (select_top_movers e).active_stocks.find? (fun t => decide (t.symbol = sym)) = some st) ∧
    (∀ (s : StrategySettings) (c : EngCtx) (ltp vol : ℚ),
      ¬ (c.stock.status = Status.STOPPED ∨ c.stock.status.isClosed = true) →
      c.stock.mode = Mode.NONE →
      ¬ (s.profit_target_per_stock < |c.stock.pnl|) →
      (process_tick s c ltp vol).stock.mode = Mode.NONE ∧
      (process_tick s c ltp vol).stock.quantity = c.stock.quantity ∧
      (process_tick s c ltp vol).stock.status = c.stock.status ∧
      (process_tick s c ltp vol).stock.pnl = c.stock.pnl) ∧
    (∀ c : EngCtx, c.stock.mode = Mode.NONE → manual_close c = c ∧ square_off_step c = c) ∧
    (∀ (s : StrategySettings) (c : EngCtx) (ltp vol : ℚ),
      ¬ (c.stock.status = Status.STOPPED ∨ c.stock.status.isClosed = true) →
      c.stock.mode = Mode.NONE →
      s.profit_target_per_stock < |c.stock.pnl| →
      (process_tick s c ltp vol).stock.status = Status.CLOSED_GlobalLimit) := by
  refine ⟨?_, ?_, ?_, ?_, ?_⟩
  · intro s c ltp vol hg hm ht hs hq hfail hnp
    exact c10_stranded_tick s c ltp vol hg hm ht hs hq hfail hnp
  · intro e sym st h1 h2 h3
    exact select_top_movers_keeps_nonidle e sym st h1 h2 h3
  · intro s c ltp vol hg hm hnp
    exact c10_inert_tick s c ltp vol hg hm hnp
  · intro c hm
    exact ⟨manual_close_none c hm, square_off_step_none c hm⟩
  · intro s c ltp vol hg hm hp
    exact c10_stale_terminal s c ltp vol hg hm hp

/-- C10 witness: on the small-loss scenario the stranded tick leaves mode
NONE, quantity 0 and status still ACTIVE. -/
theorem c10_lifecycle_witness :
    (process_tick sC1 cC10w 90 0).stock.mode = Mode.NONE ∧
    (process_tick sC1 cC10w 90 0).stock.quantity = 0 ∧
    (process_tick sC1 cC10w 90 0).stock.status = Status.ACTIVE :=
  c10_stranded_position_lifecycle.1 sC1 cC10w 90 0 (by decide) rfl
    (by rw [c10w_upd]; norm_num)
    (by rw [c10w_upd])
    (by rw [c10w_upd]; norm_num)
    (Or.inr ⟨okResp "Y1", { status := some "failure", orderId := none }, [], by decide, rfl⟩)
    (by rw [c10w_upd]; norm_num [sC1])


/-! ## C2: no opening-gap filter in the selection pass -/

/-- Settings for the C2 scenario: one gainer slot, no loser slots. -/
def sC2 : StrategySettings := { sC1 with top_n_gainers := 1, top_n_losers := 0 }

/-- An idle candidate that opened 5% above the previous close (prev close
100, price 105, +5% change) with ample turnover — the kind of gapped-up
gainer the claimed `max_open_gap_pct_long = 3.0` band would exclude. -/
def stGappy : StockStatus :=
  { symbol := "GAPPY", mode := Mode.NONE, ltp := 105, change_pct := 5, pnl := 0,
    status := Status.IDLE, entry_price := 0, quantity := 0, ladder_level := 0,
    next_add_on := 0, stop_loss := 0, target := 0, prev_close := 100,
    turnover := 20000000, high_watermark := 0, order_ids := [], avg_entry_price := 0 }

/-- A second idle candidate, up only 2%. -/
def stOthr : StockStatus :=
  { symbol := "OTHR", mode := Mode.NONE, ltp := 102, change_pct := 2, pnl := 0,
    status := Status.IDLE, entry_price := 0, quantity := 0, ladder_level := 0,
    next_add_on := 0, stop_loss := 0, target := 0, prev_close := 100,
    turnover := 20000000, high_watermark := 0, order_ids := [], avg_entry_price := 0 }

/-- C2 engine: both candidates idle, nothing started, one successful
broker response queued. -/
def eC2 : Engine :=
  { settings := sC2, active_stocks := [stGappy, stOthr], started_symbols := [],
    om := omNil, oracle := [okResp "Z1"] }

/-- `stGappy` activated long at 105: 9 shares, stop 94.5, target 210. -/
def stGappyAct : StockStatus :=
  { symbol := "GAPPY", mode := Mode.LONG, ltp := 105, change_pct := 5, pnl := 0,
    status := Status.ACTIVE, entry_price := 105, quantity := 9, ladder_level := 1,
    next_add_on := 210, stop_loss := 189/2, target := 210, prev_close := 100,
    turnover := 20000000, high_watermark := 105, order_ids := [OId.broker "Z1"],
    avg_entry_price := 105 }

set_option maxHeartbeats 4000000 in
theorem c2_pass : select_top_movers eC2 =
    { settings := sC2, active_stocks := [stGappyAct, stOthr], started_symbols := ["GAPPY"],
      om := { orders := [(OId.broker "Z1", execOrder "GAPPY" "Z1" TxnType.BUY 9 105)],
              stock_orders := [("GAPPY", [OId.broker "Z1"])], temp_seq := 1 },
      oracle := [] } := by
  have h1 : ((1:ℚ) * 10000000) = 10000000 := by norm_num
  have h2 : ((10000000:ℚ) ≤ 20000000) = True := by norm_num
  have h3 : ((0:ℚ) < 105) = True := by norm_num
  have h4 : ((0:ℚ) < 102) = True := by norm_num
  have h5 : ((0:ℚ) < 5) = True := by norm_num
  have h6 : ((0:ℚ) < 2) = True := by norm_num
  have h7 : ((5:ℚ) < 0) = False := by norm_num
  have h8 : ((2:ℚ) < 0) = False := by norm_num
  have h9 : ((2:ℚ) ≤ 5) = True := by norm_num
  have h10 : ((5:ℚ) ≤ 2) = False := by norm_num
  have h11 : pyInt ((1000:ℚ) / 105) = 9 := by norm_num [pyInt]
  have h12 : max (1:ℤ) 9 = 9 := by norm_num
  have h13 : ((105:ℚ) * (1 - 10 / 100)) = 189/2 := by norm_num
  have h14 : ((105:ℚ) * (1 + 100 / 100)) = 210 := by norm_num
  have h15 : ((105:ℚ) * (1 + 1)) = 210 := by norm_num
  simp [select_top_movers, run_ladder_on, start_long_ladder, start_short_ladder,
    stableSortBy, insertLe, create_order, dictInsert, update_order_status,
    replace_order_id, set_order_result, replaceFirst, respIsFailure, respOrderId,
    nextResp, pySetAdd, add_on_mult, init_sl_mult, tsl_mult, target_mult,
    sC2, sC1, eC2, stGappy, stOthr, stGappyAct, omNil, okResp, execOrder,
    h1, h2, h3, h4, h5, h6, h7, h8, h9, h10, h11, h12, h13, h14, h15]

/-- C2: the claim says the selection pass requires the opening gap to lie
inside the configured band, so a +5% gapped-up gainer is never activated
long under `max_open_gap_pct_long = 3.0`.  The code has no such filter or
setting: `stGappy` (previous close 100, price 105, +5%) ranks first and
this selection pass activates it LONG. -/
theorem c2_gap_gainer_activated_long :
    stGappy.prev_close = 100 ∧ stGappy.ltp = 105 ∧ stGappy.change_pct = 5 ∧
    (select_top_movers eC2).started_symbols = ["GAPPY"] ∧
    (select_top_movers eC2).active_stocks.map (fun t => (t.symbol, t.mode, t.status)) =
      [("GAPPY", Mode.LONG, Status.ACTIVE), ("OTHR", Mode.NONE, Status.IDLE)] := by
  rw [c2_pass]
  exact ⟨rfl, rfl, rfl, rfl, rfl⟩
